import Mathlib

/-!
# EcoAI: a verification development of the client-side logic

Shallow embedding of the mock AI service (`src/services/aiService.js`), the chat
widget (`src/components/Chatbot.jsx`), the auth context (`src/contexts/AuthContext.jsx`),
the map page (`src/pages/Map.jsx`), the upload page (`src/pages/Upload.jsx`), the
leaderboard sort (`src/pages/Leaderboard.jsx`), the profile statistics
(`src/pages/Profile.jsx`) and the login form (`src/pages/Login.jsx`).

Conventions of the embedding

* A JavaScript string is a Lean `String`.  Every keyword the code searches for is
  ASCII, so containment of code units and containment of code points coincide.
* `undefined` (an array read outside the bounds) is `none`.
* `Math.random()` is a stream `rand : Nat → ℚ`; `rand k` is the value returned by the
  k-th call made during one invocation, in evaluation order.  Numbers are exact
  rationals.
* `analyzeImage` is embedded on IEEE-754 binary64 numbers, since its result is fixed draw
  by draw: a double is a rational that `roundToDouble` (round to nearest, ties to even,
  53 significant bits, gradual underflow) leaves unchanged, a decimal literal denotes
  the double nearest to it, `*` and `+` round the exact result, and comparisons and
  `Math.floor` are exact on doubles.
* `Date.now()` / `new Date()` is a stream `clock : Nat → Int` of millisecond readings.
* `String.prototype.toLowerCase` is a parameter `toLowerCase : String → String`.
* An `async` function that sleeps before answering returns a `Timed` value: the
  sleep requested from `setTimeout` together with the settled value.
* An `async` function that talks to the backend is an `Eff`: it maps a `World` (document
  store, log of SDK calls, notifications, console) to its settled result and the world
  it leaves.  The surroundings are an `SdkEnv`: which SDK call of the invocation fails
  and with what error, the user an authentication yields, and the clock.
* The hosted backend is modelled after its documented contract: `setDoc` creates or
  replaces a document, `updateDoc` fails on a missing document and otherwise changes the
  named fields only, `increment(n)` adds `n`, `addDoc` appends a document.
* A page is its `useState` cells; its handlers and request continuations are events, each
  run to completion, and the reachable states are those obtained from the initial cells.
-/

namespace EcoAI

/-! ## JavaScript primitives used by the sources -/

/-- Value of `Math.floor` on an exact rational. -/
def mathFloor (x : ℚ) : Int := Int.floor x

/-- Value of `Math.round` on an exact rational: nearest integer, halves go up. -/
def mathRound (x : ℚ) : Int := Int.floor (x + 1 / 2)

/-- Nearest integer to a rational, a tie going to the even neighbour. -/
def roundHalfEven (x : ℚ) : Int :=
  let lower := Int.floor x
  if x - lower < 1 / 2 then lower
  else if 1 / 2 < x - lower then lower + 1
  else if lower % 2 = 0 then lower
  else lower + 1

/-- Exponent of the spacing of the binary64 numbers around a positive rational: a number
in [2^e, 2^(e+1)) has 53 significant bits, so its neighbours are 2^(e-52) apart, and
below 2^(-1022) the spacing stays 2^(-1074). -/
def ulpExponent (x : ℚ) : Int := max (Int.log 2 x) (-1022) - 52

/-- The binary64 number an exact result is rounded to: round to nearest, ties to even.
Results of magnitude 2^1024 - 2^970 and more, which overflow to `Infinity`, do not occur
in the sources and are not treated. -/
def roundToDouble (x : ℚ) : ℚ :=
  if x = 0 then 0
  else if 0 < x then roundHalfEven (x / 2 ^ ulpExponent x) * 2 ^ ulpExponent x
  else -(roundHalfEven (-x / 2 ^ ulpExponent (-x)) * 2 ^ ulpExponent (-x))

/-- Whether a rational is a finite binary64 number. -/
def isDouble (x : ℚ) : Bool := decide (roundToDouble x = x ∧ |x| < 2 ^ 1024)

/-- The product `a * b` of two doubles. -/
def doubleMul (a b : ℚ) : ℚ := roundToDouble (a * b)

/-- The sum `a + b` of two doubles. -/
def doubleAdd (a b : ℚ) : ℚ := roundToDouble (a + b)

/-- Array read `xs[i]` for an integral index; `none` stands for `undefined`. -/
def arrayIndex {α : Type} (xs : List α) (i : Int) : Option α :=
  if 0 ≤ i then xs.get? i.toNat else none

/-- Clamp a relative index the way `Array.prototype.slice` does. -/
def sliceBound (len : Nat) (k : Int) : Nat :=
  if k < 0 then (len + k).toNat else min k.toNat len

/-- The call `xs.slice(start, stop)` with integral arguments. -/
def arraySlice {α : Type} (xs : List α) (start stop : Int) : List α :=
  let a := sliceBound xs.length start
  let b := sliceBound xs.length stop
  (xs.drop a).take (b - a)

/-- The test `hay.includes(needle)` on character lists. -/
def includesChars (needle : List Char) : List Char → Bool
  | [] => needle.isEmpty
  | c :: rest => needle.isPrefixOf (c :: rest) || includesChars needle rest

/-- The test `hay.includes(needle)`. -/
def includes (hay needle : String) : Bool := includesChars needle.data hay.data

/-- Result of an `async` function that awaits a timer before it settles. -/
structure Timed (α : Type) where
  /-- Milliseconds handed to `setTimeout`. -/
  delayMs : ℚ
  /-- Settled value. -/
  value : α

/-! ## `aiService.js`: chatbot -/

/-- The constant `mockChatResponses.greetings`. -/
def greetings : List String :=
  ["Hello! I'm your AI Environmental Assistant. How can I help you protect our planet today? 🌍",
   "Hi there, eco warrior! What environmental questions can I help you with? 🌱",
   "Welcome! I'm here to help with all your sustainability questions. What's on your mind? 🌿"]

/-- The constant `mockChatResponses.plant_care`. -/
def plant_care : List String :=
  ["For healthy plants, ensure they get the right amount of water, light, and nutrients. What specific plant are you caring for?",
   "Plant health depends on several factors: proper watering, adequate sunlight, good soil drainage, and appropriate fertilization. Tell me more about your plant!",
   "Each plant has unique needs! Generally, check soil moisture, provide appropriate light, and watch for pests. What issues are you seeing?"]

/-- The constant `mockChatResponses.recycling`. -/
def recycling : List String :=
  ["Great question about recycling! Always check your local recycling guidelines, clean containers, and separate materials properly. What items are you looking to recycle?",
   "Recycling rules vary by location, but generally: clean containers, remove labels when possible, and separate by material type. What specific items do you need help with?",
   "The key to effective recycling is knowing your local guidelines! Plastic bottles, aluminum cans, and cardboard are commonly recyclable. What would you like to know more about?"]

/-- The constant `mockChatResponses.sustainability`. -/
def sustainability : List String :=
  ["Sustainability is about meeting our current needs without compromising future generations. Small daily actions make a big difference! What area interests you most?",
   "Living sustainably involves reducing waste, conserving energy, and making eco-friendly choices. Every small action counts! What specific area would you like to improve?",
   "Sustainability encompasses environmental, social, and economic factors. Start with simple changes like reducing plastic use or conserving water. What's your main concern?"]

/-- The constant `mockChatResponses.default`. -/
def defaultResponses : List String :=
  ["That's an interesting environmental question! While I'd love to help, I might need more specific information. Could you rephrase or provide more details?",
   "I'm focused on environmental and sustainability topics. Could you ask me something about plant care, recycling, or eco-friendly practices?",
   "I'm here to help with environmental questions! Try asking about plant health, waste management, or sustainability tips."]

/-- The helper `getRandomResponse(responses)`, given the value of its one draw. -/
def getRandomResponse (responses : List String) (r : ℚ) : Option String :=
  arrayIndex responses (mathFloor (r * responses.length))

/-- The function `getChatbotResponse(message)`: draw 0 sets the delay, draw 1 picks the
reply.  No statement of the `try` block throws on a string, so the `catch` branch (which
would return the fixed apology) is not entered. -/
def getChatbotResponse (toLowerCase : String → String) (message : String)
    (rand : Nat → ℚ) : Timed (Option String) :=
  let delay := 1000 + rand 0 * 1000
  let lowerMessage := toLowerCase message
  if includes lowerMessage "hello" || includes lowerMessage "hi"
      || includes lowerMessage "hey" then
    ⟨delay, getRandomResponse greetings (rand 1)⟩
  else if includes lowerMessage "plant" || includes lowerMessage "flower"
      || includes lowerMessage "tree" || includes lowerMessage "leaf" then
    ⟨delay, getRandomResponse plant_care (rand 1)⟩
  else if includes lowerMessage "recycle" || includes lowerMessage "waste"
      || includes lowerMessage "trash" || includes lowerMessage "garbage" then
    ⟨delay, getRandomResponse recycling (rand 1)⟩
  else if includes lowerMessage "sustain" || includes lowerMessage "environment"
      || includes lowerMessage "eco" || includes lowerMessage "green" then
    ⟨delay, getRandomResponse sustainability (rand 1)⟩
  else
    ⟨delay, getRandomResponse defaultResponses (rand 1)⟩

/-- ASCII lower-casing, the restriction of `toLowerCase` to ASCII text. -/
def asciiLower (s : String) : String := String.mk (s.data.map Char.toLower)

/-! ## Keyword buckets as C1 words them -/

/-- Some keyword of `keywords` occurs as a contiguous block of `text`. -/
def containsAny (text : String) (keywords : List String) : Bool :=
  keywords.any fun k => decide (k.data <:+: text.data)

/-- The bucket C1 assigns to an already lower-cased text: keyword groups tested in the
fixed order greetings, plant care, recycling, sustainability, else the default bucket. -/
def keywordBucket (lowered : String) : List String :=
  if containsAny lowered ["hello", "hi", "hey"] then greetings
  else if containsAny lowered ["plant", "flower", "tree", "leaf"] then plant_care
  else if containsAny lowered ["recycle", "waste", "trash", "garbage"] then recycling
  else if containsAny lowered ["sustain", "environment", "eco", "green"] then sustainability
  else defaultResponses

/-! ## `aiService.js`: image analysis -/

/-- Shape of the two records of `mockPlantAnalysis`. -/
structure PlantAnalysis where
  health : String
  confidence : ℚ
  issues : List String
  suggestions : List String
  deriving DecidableEq

/-- Shape of one entry of `mockTrashAnalysis.items`. -/
structure TrashItem where
  name : String
  category : String
  confidence : ℚ
  tip : String
  deriving DecidableEq

/-- Shape of `mockTrashAnalysis` and of the record returned in trash mode. -/
structure TrashAnalysis where
  items : List TrashItem
  overallTip : String
  deriving DecidableEq

/-- A record returned by `analyzeImage`. -/
inductive Analysis where
  | plant (record : PlantAnalysis)
  | trash (record : TrashAnalysis)
  deriving DecidableEq

/-- The constant `mockPlantAnalysis.healthy`. -/
def mockPlantAnalysis.healthy : PlantAnalysis where
  health := "healthy"
  confidence := 0.95
  issues := []
  suggestions :=
    ["Your plant looks healthy! Continue current care routine.",
     "Maintain consistent watering schedule.",
     "Ensure adequate sunlight exposure.",
     "Consider fertilizing monthly during growing season."]

/-- The constant `mockPlantAnalysis.diseased`. -/
def mockPlantAnalysis.diseased : PlantAnalysis where
  health := "diseased"
  confidence := 0.87
  issues :=
    ["Yellowing leaves detected - possible nutrient deficiency",
     "Brown spots suggest fungal infection",
     "Wilting indicates possible overwatering"]
  suggestions :=
    ["Reduce watering frequency and ensure proper drainage",
     "Apply organic fungicide for brown spot treatment",
     "Add nitrogen-rich fertilizer for yellowing leaves",
     "Remove affected leaves to prevent spread",
     "Improve air circulation around the plant"]

/-- The constant `mockTrashAnalysis`. -/
def mockTrashAnalysis : TrashAnalysis where
  items :=
    [{ name := "Plastic Water Bottle", category := "recyclable", confidence := 0.94,
       tip := "Remove cap and label before recycling. Rinse if needed." },
     { name := "Food Scraps", category := "compostable", confidence := 0.89,
       tip := "Perfect for composting! Avoid meat, dairy, and oily foods." },
     { name := "Aluminum Can", category := "recyclable", confidence := 0.96,
       tip := "Aluminum is infinitely recyclable! Clean before disposing." }]
  overallTip :=
    "Great job sorting! Remember to clean containers before recycling for better processing."

/-- The statements of `analyzeImage` inside `try`, after the delay: draw 1 decides the
plant record or the number of trash items; any other mode throws.  The draw is a double:
it is compared with the double that the literal `0.4` denotes, and `Math.random() * 3`
is the rounded product. -/
def analyzeImageBody (_imageBase64 : String) (mode : String) (rand : Nat → ℚ) :
    Except String Analysis :=
  if mode = "plant" then
    let isHealthy : Bool := decide (rand 1 > roundToDouble 0.4)
    .ok (.plant (if isHealthy then mockPlantAnalysis.healthy else mockPlantAnalysis.diseased))
  else if mode = "trash" then
    let items := mockTrashAnalysis.items
    let numItems := mathFloor (doubleMul (rand 1) 3) + 1
    let selectedItems := arraySlice items 0 numItems
    .ok (.trash { mockTrashAnalysis with items := selectedItems })
  else
    .error "Invalid analysis mode"

/-- The function `analyzeImage(imageBase64, mode)`: draw 0 sets the delay; an error
thrown inside `try` is replaced by the fixed failure message. -/
def analyzeImage (imageBase64 : String) (mode : String) (rand : Nat → ℚ) :
    Timed (Except String Analysis) :=
  { delayMs := doubleAdd 2000 (doubleMul (rand 0) 2000)
    value :=
      match analyzeImageBody imageBase64 mode rand with
      | .ok record => .ok record
      | .error _ => .error "AI analysis failed. Please try again." }

/-! ## `aiService.js`: environmental data -/

/-- The `weather` part of the record of `getEnvironmentalData`. -/
structure Weather where
  temperature : Int
  humidity : Int
  description : Option String
  windSpeed : Int
  deriving DecidableEq

/-- The `airQuality` part of the record of `getEnvironmentalData`. -/
structure AirQuality where
  aqi : Int
  level : Option String
  pm25 : Int
  pm10 : Int
  deriving DecidableEq

/-- The `uvIndex` part of the record of `getEnvironmentalData`. -/
structure UvIndex where
  index : Int
  level : Option String
  deriving DecidableEq

/-- The record returned by `getEnvironmentalData`. -/
structure EnvironmentalData where
  weather : Weather
  airQuality : AirQuality
  uvIndex : UvIndex
  deriving DecidableEq

/-- The function `getEnvironmentalData(latitude, longitude)`; an omitted argument is
`none` and takes the default of the signature.  The delay is the constant 1000 and the
ten draws are consumed in the order of the object literal.  Nothing inside `try` throws. -/
def getEnvironmentalData (latitude longitude : Option ℚ) (rand : Nat → ℚ) :
    Timed EnvironmentalData :=
  let _latitude : ℚ := latitude.getD 40.7128
  let _longitude : ℚ := longitude.getD (-74.0060)
  { delayMs := 1000
    value :=
      { weather :=
          { temperature := mathRound (15 + rand 0 * 20)
            humidity := mathRound (40 + rand 1 * 40)
            description :=
              arrayIndex ["Sunny", "Partly Cloudy", "Cloudy", "Light Rain"]
                (mathFloor (rand 2 * 4))
            windSpeed := mathRound (rand 3 * 15) + 5 }
        airQuality :=
          { aqi := mathRound (50 + rand 4 * 100)
            level :=
              arrayIndex ["Good", "Moderate", "Unhealthy for Sensitive Groups"]
                (mathFloor (rand 5 * 3))
            pm25 := mathRound (10 + rand 6 * 30)
            pm10 := mathRound (20 + rand 7 * 50) }
        uvIndex :=
          { index := mathRound (rand 8 * 10) + 1
            level :=
              arrayIndex ["Low", "Moderate", "High", "Very High", "Extreme"]
                (mathFloor (rand 9 * 5)) } } }

/-! ## The signed-in user of the auth context -/

/-- The fields of the auth context's `user` object that the modelled code reads. -/
structure User where
  uid : String
  displayName : Option String
  email : Option String
  photoURL : Option String
  deriving DecidableEq

/-! ## `Chatbot.jsx` -/

/-- Code points stripped by `String.prototype.trim`: the WhiteSpace and LineTerminator
productions of ECMAScript. -/
def isTrimChar (c : Char) : Bool :=
  let n := c.toNat
  n == 0x09 || n == 0x0A || n == 0x0B || n == 0x0C || n == 0x0D || n == 0x20
    || n == 0xA0 || n == 0x1680 || (0x2000 ≤ n && n ≤ 0x200A) || n == 0x2028
    || n == 0x2029 || n == 0x202F || n == 0x205F || n == 0x3000 || n == 0xFEFF

/-- The method `String.prototype.trim`. -/
def trim (s : String) : String :=
  String.mk ((s.data.dropWhile isTrimChar).reverse.dropWhile isTrimChar).reverse

/-- One entry of the `messages` state. -/
structure Message where
  id : Int
  type : String
  content : Option String
  timestamp : Int
  deriving DecidableEq

/-- The five `useState` cells of the `Chatbot` component. -/
structure ChatState where
  isOpen : Bool
  isMinimized : Bool
  messages : List Message
  inputMessage : String
  loading : Bool
  deriving DecidableEq

/-- Initial values of the `useState` cells; `mountedAt` is the reading of `new Date()`. -/
def ChatState.initial (mountedAt : Int) : ChatState where
  isOpen := false
  isMinimized := false
  messages :=
    [{ id := 1, type := "bot",
       content := some "Hello! I'm your AI Environmental Assistant 🌍 How can I help you protect our planet today?",
       timestamp := mountedAt }]
  inputMessage := ""
  loading := false

/-- One entry of `quickActions`; `icon` is the name of the icon component. -/
structure QuickAction where
  icon : String
  text : String
  message : String
  deriving DecidableEq

/-- The constant `quickActions`. -/
def quickActions : List QuickAction :=
  [{ icon := "Leaf", text := "Plant care tips", message := "How do I take care of my plants?" },
   { icon := "Recycle", text := "Recycling help", message := "What can I recycle and how?" },
   { icon := "TreePine", text := "Sustainability tips",
     message := "Give me some sustainability tips" },
   { icon := "Lightbulb", text := "Eco-friendly ideas",
     message := "What are some eco-friendly practices I can adopt?" }]

/-- The fixed apology shown when the chatbot request fails. -/
def chatErrorText : String :=
  "I'm having trouble processing your request right now. Please try again in a moment! 🤖"

/-- What one run of `sendMessage` did: the state it left and the arguments of its calls
to `getChatbotResponse`, in call order. -/
structure SendResult where
  state : ChatState
  chatbotCalls : List String
  deriving DecidableEq

/-- The part of `sendMessage` before `await`: `none` when the guard returns early,
otherwise the state after the three setters (clock readings 0 and 1). -/
def sendMessageStart (s : ChatState) (messageText : String) (clock : Nat → Int) :
    Option ChatState :=
  if trim messageText = "" then none
  else
    let userMessage : Message :=
      { id := clock 0, type := "user", content := some (trim messageText),
        timestamp := clock 1 }
    some { s with
      messages := s.messages ++ [userMessage]
      inputMessage := ""
      loading := true }

/-- The part of `sendMessage` after `await`: the `try` continuation on a fulfilled
request, the `catch` block on a rejected one, then `finally` (clock readings 2 and 3). -/
def sendMessageSettle (s : ChatState) (outcome : Except String (Option String))
    (clock : Nat → Int) : ChatState :=
  let replied : ChatState :=
    match outcome with
    | .ok botResponse =>
      let botMessage : Message :=
        { id := clock 2 + 1, type := "bot", content := botResponse, timestamp := clock 3 }
      { s with messages := s.messages ++ [botMessage] }
    | .error _ =>
      let errorMessage : Message :=
        { id := clock 2 + 1, type := "bot", content := some chatErrorText,
          timestamp := clock 3 }
      { s with messages := s.messages ++ [errorMessage] }
  { replied with loading := false }

/-- The function `sendMessage(messageText = inputMessage)` run to completion with no
other event in between; `none` is an omitted argument.  The request is made with the
untrimmed text and, as `getChatbotResponse` handles its own errors, is fulfilled. -/
def sendMessage (toLowerCase : String → String) (s : ChatState)
    (messageText : Option String) (clock : Nat → Int) (rand : Nat → ℚ) : SendResult :=
  let text := messageText.getD s.inputMessage
  match sendMessageStart s text clock with
  | none => { state := s, chatbotCalls := [] }
  | some started =>
    let botResponse := (getChatbotResponse toLowerCase text rand).value
    { state := sendMessageSettle started (.ok botResponse) clock
      chatbotCalls := [text] }

/-- The handler `handleSubmit`: `sendMessage()` without argument. -/
def handleSubmit (toLowerCase : String → String) (s : ChatState) (clock : Nat → Int)
    (rand : Nat → ℚ) : SendResult :=
  sendMessage toLowerCase s none clock rand

/-- The handler `handleQuickAction(message)`. -/
def handleQuickAction (toLowerCase : String → String) (s : ChatState) (message : String)
    (clock : Nat → Int) (rand : Nat → ℚ) : SendResult :=
  sendMessage toLowerCase s (some message) clock rand

/-- The `onClick` of the minimize button: `setIsMinimized(!isMinimized)`. -/
def onMinimizeClick (s : ChatState) : ChatState :=
  { s with isMinimized := !s.isMinimized }

/-- The part of the chat window below the header. -/
structure ChatBody where
  /-- Entries of the rendered message list, one per `messages.map` iteration. -/
  messageList : List Message
  thinkingBubble : Bool
  quickActionsShown : Bool
  inputValue : String
  inputDisabled : Bool
  sendDisabled : Bool
  deriving DecidableEq

/-- The chat window: header and, unless minimised, the body. -/
structure ChatWindow where
  statusText : String
  minimizeIcon : String
  body : Option ChatBody
  deriving DecidableEq

/-- What the component puts on screen. -/
structure ChatView where
  floatingButton : Bool
  window : Option ChatWindow
  deriving DecidableEq

/-- The JSX returned by `Chatbot`: nothing without a user, else the floating button
when closed and the window when open, whose body is present when not minimised. -/
def render (user : Option User) (s : ChatState) : Option ChatView :=
  match user with
  | none => none
  | some _ =>
    some
      { floatingButton := !s.isOpen
        window :=
          if s.isOpen then
            some
              { statusText := if s.loading then "Typing..." else "Online"
                minimizeIcon := if s.isMinimized then "Maximize2" else "Minimize2"
                body :=
                  if !s.isMinimized then
                    some
                      { messageList := s.messages
                        thinkingBubble := s.loading
                        quickActionsShown := decide (s.messages.length ≤ 1)
                        inputValue := s.inputMessage
                        inputDisabled := s.loading
                        sendDisabled := s.loading || decide (trim s.inputMessage = "") }
                  else none }
          else none }

/-- The chat window, when it is on screen. -/
def shownWindow (view : Option ChatView) : Option ChatWindow :=
  view.bind ChatView.window

/-- The rendered message list, when it is on screen. -/
def shownMessageList (view : Option ChatView) : Option (List Message) :=
  ((shownWindow view).bind ChatWindow.body).map ChatBody.messageList

/-! ## `Map.jsx`: category filter -/

/-- One element of the `reports` state.  Documents come from the backend unvalidated, so
`category` is `none` when the field is absent or not a string. -/
structure Report where
  id : String
  lat : ℚ
  lng : ℚ
  category : Option String
  description : String
  userName : String
  deriving DecidableEq

/-- The `color` column of the constant `categoryIcons`. -/
def categoryColor (category : Option String) : Option String :=
  match category with
  | some "trash" => some "#ef4444"
  | some "pollution" => some "#f59e0b"
  | some "deforestation" => some "#8b5cf6"
  | some "flood" => some "#3b82f6"
  | _ => none

/-- The derived value `filteredReports` of the `Map` component. -/
def filteredReports (reports : List Report) (filterCategory : String) : List Report :=
  if filterCategory = "all" then reports
  else reports.filter fun report => report.category == some filterCategory

/-- A `Marker` element placed on the map. -/
structure Marker where
  key : String
  position : ℚ × ℚ
  iconColor : String
  deriving DecidableEq

/-- The markers rendered by `filteredReports.map(...)`. -/
def markers (reports : List Report) (filterCategory : String) : List Marker :=
  (filteredReports reports filterCategory).map fun report =>
    { key := report.id
      position := (report.lat, report.lng)
      iconColor := (categoryColor report.category).getD "#6b7280" }

/-! ## `Leaderboard.jsx`: sorting -/

/-- The expression `value || fallback` for a value that is a string, `null` or
`undefined`: the empty string is falsy as well. -/
def orString (value : Option String) (fallback : String) : String :=
  match value with
  | some text => if text = "" then fallback else text
  | none => fallback

/-- The expression `value || null` for a value that is a string, `null` or `undefined`. -/
def orNull (value : Option String) : Option String :=
  match value with
  | some text => if text = "" then none else some text
  | none => none

/-- One row of the leaderboard. -/
structure LeaderboardEntry where
  id : String
  displayName : String
  photoURL : Option String
  points : Int
  analyses : Int
  reports : Int
  level : Int
  badges : List String
  streak : Int
  deriving DecidableEq

/-- The constant `mockLeaderboard`; row `'6'` takes its name and photo from the user. -/
def mockLeaderboard (user : Option User) : List LeaderboardEntry :=
  [{ id := "1", displayName := "EcoChampion2024", photoURL := none, points := 2850,
     analyses := 95, reports := 42, level := 8,
     badges := ["eco-warrior", "plant-expert", "waste-wizard", "community-hero"],
     streak := 15 },
   { id := "2", displayName := "GreenGuardian", photoURL := none, points := 2650,
     analyses := 88, reports := 38, level := 7,
     badges := ["eco-warrior", "plant-expert", "map-explorer"], streak := 12 },
   { id := "3", displayName := "SustainabilityPro", photoURL := none, points := 2340,
     analyses := 76, reports := 35, level := 7,
     badges := ["eco-warrior", "waste-wizard", "streak-master"], streak := 22 },
   { id := "4", displayName := "PlantWhisperer", photoURL := none, points := 2120,
     analyses := 82, reports := 28, level := 6,
     badges := ["eco-warrior", "plant-expert"], streak := 8 },
   { id := "5", displayName := "RecycleHero", photoURL := none, points := 1980,
     analyses := 65, reports := 45, level := 6,
     badges := ["eco-warrior", "waste-wizard", "community-hero"], streak := 5 },
   { id := "6", displayName := orString (user.bind User.displayName) "You",
     photoURL := orNull (user.bind User.photoURL), points := 1750,
     analyses := 58, reports := 22, level := 5,
     badges := ["eco-warrior", "newcomer"], streak := 3 },
   { id := "7", displayName := "EcoNinja", photoURL := none, points := 1620,
     analyses := 52, reports := 31, level := 5,
     badges := ["eco-warrior", "map-explorer"], streak := 7 },
   { id := "8", displayName := "TreeLover99", photoURL := none, points := 1450,
     analyses := 48, reports := 19, level := 4,
     badges := ["eco-warrior"], streak := 4 },
   { id := "9", displayName := "WasteWarrior", photoURL := none, points := 1320,
     analyses := 42, reports := 26, level := 4,
     badges := ["eco-warrior", "waste-wizard"], streak := 1 },
   { id := "10", displayName := "GreenThumb", photoURL := none, points := 1180,
     analyses := 38, reports := 15, level := 3,
     badges := ["newcomer"], streak := 6 }]

/-- The comparator handed to `sort`. -/
def compareEntries (categoryFilter : String) (a b : LeaderboardEntry) : Int :=
  if categoryFilter = "points" then b.points - a.points
  else if categoryFilter = "analyses" then b.analyses - a.analyses
  else if categoryFilter = "reports" then b.reports - a.reports
  else 0

/-- The method `Array.prototype.sort(compareFn)` on a copy of the array: a stable sort
(as ECMAScript requires) placing `a` before `b` when `compareFn(a, b) ≤ 0`, realised as
insertion sort. -/
def arraySort {α : Type} (compareFn : α → α → Int) (xs : List α) : List α :=
  xs.insertionSort fun a b => compareFn a b ≤ 0

/-- The method `Array.prototype.findIndex`: `-1` when no element passes the test. -/
def findIndex {α : Type} (test : α → Bool) (xs : List α) : Int :=
  match xs.findIdx? test with
  | some index => index
  | none => -1

/-- What `fetchLeaderboardData` stores with `setLeaderboard` and `setUserRank`. -/
structure LeaderboardData where
  leaderboard : List LeaderboardEntry
  userRank : Option Int
  deriving DecidableEq

/-- The function `fetchLeaderboardData`, reading the component's `user`, `timeFilter`
and `categoryFilter`; nothing inside `try` throws. -/
def fetchLeaderboardData (user : Option User) (_timeFilter : String)
    (categoryFilter : String) : LeaderboardData :=
  let sortedLeaderboard := arraySort (compareEntries categoryFilter) (mockLeaderboard user)
  let userIndex :=
    findIndex (fun u => u.displayName == orString (user.bind User.displayName) "You")
      sortedLeaderboard
  { leaderboard := sortedLeaderboard
    userRank := if userIndex ≥ 0 then some (userIndex + 1) else none }

/-! ## Backend SDK: errors, documents, calls and notifications -/

/-- An error object thrown or rejected with: its `name` and its `message`. -/
structure JsError where
  name : String
  message : String
  deriving DecidableEq

/-- A document of the `users` collection as `createUserProfile` writes it; `name` is the
field spread from `additionalData`, absent when `none`.  Dates are milliseconds. -/
structure Profile where
  displayName : String
  email : Option String
  photoURL : Option String
  createdAt : Int
  points : Int
  level : Int
  badges : List String
  totalUploads : Int
  totalReports : Int
  streak : Int
  lastLogin : Int
  name : Option String
  deriving DecidableEq

/-- The two field updates this code sends with `updateDoc` to a `users` document:
`{ lastLogin: new Date() }` and `{ points: increment(n) }`. -/
inductive ProfileUpdate where
  | lastLogin (time : Int)
  | incrementPoints (amount : Int)
  deriving DecidableEq

/-- The value `serverTimestamp()`, resolved by the server. -/
inductive ServerTimestamp where
  | sentinel
  deriving DecidableEq

/-- The object `reportData` that `submitReport` hands to `addDoc`. -/
structure ReportData where
  lat : ℚ
  lng : ℚ
  category : String
  description : String
  userName : String
  userId : String
  timestamp : ServerTimestamp
  hasImage : Bool
  deriving DecidableEq

/-- The object that `analyzeFile` hands to `addDoc`. -/
structure AnalysisRecord where
  userId : String
  mode : String
  result : Analysis
  timestamp : ServerTimestamp
  imageUrl : Option String
  deriving DecidableEq

/-- The document store: the `users` collection keyed by uid and the two append-only
collections, oldest document first. -/
structure Backend where
  users : String → Option Profile
  ecoReports : List ReportData
  analyses : List AnalysisRecord

/-- A call of a backend SDK function, with the arguments the code passes. -/
inductive SdkCall where
  | createUserWithEmailAndPassword (email password : String)
  | updateProfile (uid : String) (displayName : String)
  | signInWithEmailAndPassword (email password : String)
  | signInWithPopup
  | signOut
  | getDoc (uid : String)
  | setDoc (uid : String) (data : Profile)
  | updateDoc (uid : String) (update : ProfileUpdate)
  | addReport (data : ReportData)
  | addAnalysis (data : AnalysisRecord)
  | getReports
  deriving DecidableEq

/-- A `react-hot-toast` notification. -/
inductive Toast where
  | success (message : String)
  | error (message : String)
  deriving DecidableEq

/-- Everything an operation can observe or change: the document store and the logs of
SDK calls issued, notifications shown and `console.error` labels, oldest first. -/
structure World where
  backend : Backend
  calls : List SdkCall
  toasts : List Toast
  consoleErrors : List String

/-- The world in which an invocation starts: the given store and empty logs. -/
def World.start (backend : Backend) : World where
  backend := backend
  calls := []
  toasts := []
  consoleErrors := []

/-- What lies outside the code during one invocation: `faults k` is the error with which
the k-th SDK call of the invocation fails (`none`: the call goes through),
`credentialUser` the user of the credential a successful authentication returns, and
`clock k` the k-th reading of the system clock. -/
structure SdkEnv where
  faults : Nat → Option JsError
  credentialUser : User
  clock : Nat → Int

/-- An `async` function: from a world to its settled result (fulfilled value or
rejection) and the world it leaves. -/
def Eff (α : Type) : Type := World → Except JsError α × World

/-- Run an `async` function to completion. -/
def Eff.run {α : Type} (action : Eff α) (world : World) : Except JsError α × World :=
  action world

/-- Sequencing (`await` then continue); a rejection skips the continuation. -/
def Eff.andThen {α β : Type} (action : Eff α) (next : α → Eff β) : Eff β := fun world =>
  match action world with
  | (.ok value, world') => next value world'
  | (.error e, world') => (.error e, world')

/-- The block `try { body } catch (error) { handler }`. -/
def Eff.tryCatch {α : Type} (body : Eff α) (handler : JsError → Eff α) : Eff α :=
  fun world =>
    match body world with
    | (.ok value, world') => (.ok value, world')
    | (.error e, world') => handler e world'

instance : Monad Eff where
  pure value := fun world => (.ok value, world)
  bind := Eff.andThen

instance : MonadExcept JsError Eff where
  throw e := fun world => (.error e, world)
  tryCatch := Eff.tryCatch

/-- The call `toast.success(message)`. -/
def toastSuccess (message : String) : Eff Unit := fun world =>
  (.ok (), { world with toasts := world.toasts ++ [Toast.success message] })

/-- The call `toast.error(message)`. -/
def toastError (message : String) : Eff Unit := fun world =>
  (.ok (), { world with toasts := world.toasts ++ [Toast.error message] })

/-- The call `console.error(label, error)`. -/
def consoleError (label : String) : Eff Unit := fun world =>
  (.ok (), { world with consoleErrors := world.consoleErrors ++ [label] })

/-- Issue one SDK call: it is logged, fails with the injected fault if there is one, and
otherwise has the effect of the backend on the store (which can fail as well). -/
def sdkCall {α : Type} (env : SdkEnv) (call : SdkCall)
    (effect : Backend → Except JsError (α × Backend)) : Eff α := fun world =>
  let issued : World := { world with calls := world.calls ++ [call] }
  match env.faults world.calls.length with
  | some e => (.error e, issued)
  | none =>
    match effect world.backend with
    | .error e => (.error e, issued)
    | .ok (value, backend) => (.ok value, { issued with backend := backend })

/-- The rejection of `updateDoc` on a document that does not exist. -/
def notFound : JsError where
  name := "FirebaseError"
  message := "No document to update"

/-- Effect of `updateDoc(userRef, update)` on the store: fails on a missing document,
else changes the named field only; `increment(n)` adds `n` to the stored number. -/
def applyUpdate (uid : String) (update : ProfileUpdate) (backend : Backend) :
    Except JsError (Unit × Backend) :=
  match backend.users uid with
  | none => .error notFound
  | some profile =>
    let updated : Profile :=
      match update with
      | .lastLogin time => { profile with lastLogin := time }
      | .incrementPoints amount => { profile with points := profile.points + amount }
    .ok ((), { backend with users := fun other => if other = uid then some updated
                                                   else backend.users other })

/-- Effect of `setDoc(userRef, data)` on the store: the document is created or replaced. -/
def applySet (uid : String) (data : Profile) (backend : Backend) :
    Except JsError (Unit × Backend) :=
  .ok ((), { backend with users := fun other => if other = uid then some data
                                                 else backend.users other })

/-! ## `AuthContext.jsx` -/

/-- The object returned by the authentication calls. -/
structure UserCredential where
  user : User
  deriving DecidableEq

/-- The second argument of `createUserProfile` as the code passes it: `{}` or `{ name }`. -/
structure AdditionalData where
  name : Option String
  deriving DecidableEq

/-- The function `createUserProfile(user, additionalData)`.  `getDoc` is awaited outside
any `try`; each of the two writes sits in its own `try` whose `catch` only logs. -/
def createUserProfile (env : SdkEnv) (user : Option User) (additionalData : AdditionalData) :
    Eff (Option String) :=
  match user with
  | none => pure none
  | some user => do
    let userRef := user.uid
    let userSnap ← sdkCall env (.getDoc userRef) fun backend =>
      .ok (backend.users userRef, backend)
    if userSnap.isNone then
      let createdAt := env.clock 0
      let data : Profile :=
        { displayName :=
            orString user.displayName (orString additionalData.name "Eco Warrior")
          email := user.email
          photoURL := orNull user.photoURL
          createdAt := createdAt
          points := 0
          level := 1
          badges := ["newcomer"]
          totalUploads := 0
          totalReports := 0
          streak := 0
          lastLogin := createdAt
          name := additionalData.name }
      try
        sdkCall env (.setDoc userRef data) (applySet userRef data)
      catch _ =>
        consoleError "Error creating user profile:"
    else
      try
        sdkCall env (.updateDoc userRef (.lastLogin (env.clock 0)))
          (applyUpdate userRef (.lastLogin (env.clock 0)))
      catch _ =>
        consoleError "Error updating last login:"
    pure (some userRef)

/-- The function `updateUserPoints(pointsToAdd = 5)` of the provider whose state holds
`user`; `none` is an omitted argument. -/
def updateUserPoints (env : SdkEnv) (user : Option User) (pointsToAdd : Option Int) :
    Eff Unit :=
  let pointsToAdd := pointsToAdd.getD 5
  match user with
  | none => pure ()
  | some user => do
    let userRef := user.uid
    try
      sdkCall env (.updateDoc userRef (.incrementPoints pointsToAdd))
        (applyUpdate userRef (.incrementPoints pointsToAdd))
      toastSuccess ("+" ++ toString pointsToAdd ++ " eco points earned! 🌱")
    catch _ =>
      consoleError "Error updating user points:"

/-- The function `signUp(email, password, name)`.  `updateProfile` leaves the new name
(or `null` for an empty one) in `result.user`. -/
def signUp (env : SdkEnv) (email password name : String) : Eff UserCredential := do
  try
    let result : UserCredential ←
      sdkCall env (.createUserWithEmailAndPassword email password) fun backend =>
        .ok ({ user := env.credentialUser }, backend)
    let result : UserCredential ←
      sdkCall env (.updateProfile result.user.uid name) fun backend =>
        .ok ({ user := { result.user with displayName := orNull (some name) } }, backend)
    let _ ← createUserProfile env (some result.user) { name := some name }
    toastSuccess "Welcome to EcoAI Pro! 🌍"
    pure result
  catch error =>
    toastError error.message
    throw error

/-- The function `signIn(email, password)`. -/
def signIn (env : SdkEnv) (email password : String) : Eff UserCredential := do
  try
    let result : UserCredential ←
      sdkCall env (.signInWithEmailAndPassword email password) fun backend =>
        .ok ({ user := env.credentialUser }, backend)
    toastSuccess "Welcome back, Eco Warrior! 🌱"
    pure result
  catch error =>
    toastError "Invalid credentials"
    throw error

/-- The function `signInWithGoogle()`. -/
def signInWithGoogle (env : SdkEnv) : Eff UserCredential := do
  try
    let result : UserCredential ←
      sdkCall env .signInWithPopup fun backend =>
        .ok ({ user := env.credentialUser }, backend)
    let _ ← createUserProfile env (some result.user) { name := none }
    toastSuccess "Successfully signed in with Google! 🌍"
    pure result
  catch error =>
    toastError "Google sign in failed"
    throw error

/-- The function `logout()`. -/
def logout (env : SdkEnv) : Eff Unit := do
  try
    sdkCall env .signOut fun backend => .ok ((), backend)
    toastSuccess "See you later, Eco Warrior! 👋"
  catch error =>
    toastError "Sign out failed"
    throw error

/-- Name of the SDK function behind a call. -/
def SdkCall.functionName : SdkCall → String
  | .createUserWithEmailAndPassword _ _ => "createUserWithEmailAndPassword"
  | .updateProfile _ _ => "updateProfile"
  | .signInWithEmailAndPassword _ _ => "signInWithEmailAndPassword"
  | .signInWithPopup => "signInWithPopup"
  | .signOut => "signOut"
  | .getDoc _ => "getDoc"
  | .setDoc _ _ => "setDoc"
  | .updateDoc _ _ => "updateDoc"
  | .addReport _ => "addDoc"
  | .addAnalysis _ => "addDoc"
  | .getReports => "getDocs"

/-! ## Reference values used to state the claims on the auth context -/

/-- The error of the first failing call among the first `count` calls of an invocation. -/
def firstFault (faults : Nat → Option JsError) : Nat → Option JsError
  | 0 => none
  | count + 1 =>
    match firstFault faults count with
    | some e => some e
    | none => faults count

/-- Settled result of an operation that rethrows `fault` and otherwise returns `value`. -/
def settledWith {α : Type} (fault : Option JsError) (value : α) : Except JsError α :=
  match fault with
  | some e => .error e
  | none => .ok value

/-- Notifications of an operation that rethrows `fault`: one error notification in that
case, else one success notification. -/
def notifiedWith (fault : Option JsError) (successText : String)
    (errorText : JsError → String) : List Toast :=
  match fault with
  | some e => [Toast.error (errorText e)]
  | none => [Toast.success successText]

/-- A string value that is present and not empty (truthy in JavaScript). -/
def isNonEmpty (value : Option String) : Bool :=
  match value with
  | some text => decide (text ≠ "")
  | none => false

/-- A store without documents. -/
def emptyBackend : Backend where
  users := fun _ => none
  ecoReports := []
  analyses := []

/-- An account used in the examples: no display name yet. -/
def sampleUser : User where
  uid := "uid-ann"
  displayName := none
  email := some "ann@example.org"
  photoURL := none

/-- An environment in which no SDK call fails. -/
def quietEnv : SdkEnv where
  faults := fun _ => none
  credentialUser := sampleUser
  clock := fun _ => 1000

/-- An environment in which exactly the call with index `failing` fails. -/
def faultAt (failing : Nat) : SdkEnv where
  faults := fun k => if k = failing then some { name := "FirebaseError", message := "unavailable" }
                     else none
  credentialUser := sampleUser
  clock := fun _ => 1000

/-- A profile as `createUserProfile` writes it for `sampleUser`, with 40 points. -/
def sampleProfile : Profile where
  displayName := "Ann"
  email := some "ann@example.org"
  photoURL := none
  createdAt := 500
  points := 40
  level := 1
  badges := ["newcomer"]
  totalUploads := 0
  totalReports := 0
  streak := 0
  lastLogin := 500
  name := some "Ann"

/-- A store holding `sampleProfile` for `sampleUser` and nothing else. -/
def sampleBackend : Backend where
  users := fun uid => if uid = "uid-ann" then some sampleProfile else none
  ecoReports := []
  analyses := []

/-! ## `Map.jsx`: the report form -/

/-- A position on the map (`e.latlng`). -/
structure LatLng where
  lat : ℚ
  lng : ℚ
  deriving DecidableEq

/-- A file picked by the user: its name and MIME type, the URL that
`URL.createObjectURL` gives it, and the data URL a `FileReader` yields for it (`none`
when reading fails). -/
structure File where
  name : String
  type : String
  objectUrl : String
  dataUrl : Option String
  deriving DecidableEq

/-- The keys of the constant `categoryIcons`, in the order of `Object.entries`. -/
def categoryKeys : List String := ["trash", "pollution", "deforestation", "flood"]

/-- The `useState` cells of the `Map` component. -/
structure MapState where
  reports : List Report
  showReportModal : Bool
  selectedPosition : Option LatLng
  selectedCategory : String
  reportDescription : String
  reportImage : Option File
  imagePreview : String
  loading : Bool
  filterCategory : String
  deriving DecidableEq

/-- Initial values of the `useState` cells of `Map`. -/
def MapState.initial : MapState where
  reports := []
  showReportModal := false
  selectedPosition := none
  selectedCategory := "trash"
  reportDescription := ""
  reportImage := none
  imagePreview := ""
  loading := false
  filterCategory := "all"

/-- The constant `mockReports` of `fetchReports` (without the timestamps). -/
def mockReports : List Report :=
  [{ id := "mock1", lat := 40.7580, lng := -73.9855, category := some "trash",
     description := "Large pile of plastic waste near the park entrance",
     userName := "EcoWarrior123" },
   { id := "mock2", lat := 40.7614, lng := -73.9776, category := some "pollution",
     description := "Air quality seems poor due to construction activities",
     userName := "GreenGuardian" },
   { id := "mock3", lat := 40.7505, lng := -73.9934, category := some "deforestation",
     description := "Several trees were recently cut down for development",
     userName := "TreeProtector" }]

/-- The synchronous part of `fetchReports()`: the `getDocs` query is issued; its outcome
is handled later by `fetchReportsSettle`. -/
def fetchReportsStart : Eff Unit := fun world =>
  (.ok (), { world with calls := world.calls ++ [SdkCall.getReports] })

/-- The part of `fetchReports` after `await getDocs(...)`: the fetched documents followed
by the mock reports, or only a log entry when the query failed. -/
def fetchReportsSettle (s : MapState) (outcome : Except JsError (List Report)) : MapState :=
  match outcome with
  | .ok reportsData => { s with reports := reportsData ++ mockReports }
  | .error _ => s

/-- The handler `handleMapClick(latlng)`. -/
def handleMapClick (s : MapState) (latlng : LatLng) : MapState :=
  { s with selectedPosition := some latlng, showReportModal := true }

/-- The handler `handleImageUpload(e)`; `file` is `e.target.files[0]`. -/
def handleImageUpload (s : MapState) (file : Option File) : MapState :=
  match file with
  | some file => { s with reportImage := some file, imagePreview := file.objectUrl }
  | none => s

/-- The `TypeError` raised by reading a property of `null`. -/
def nullPropertyError : JsError where
  name := "TypeError"
  message := "Cannot read properties of null"

/-- The function `submitReport`, run to completion with no other event in between.  The
page's `updateUserPoints` is the one of the auth context, closed over the same `user`. -/
def submitReport (env : SdkEnv) (user : Option User) (s : MapState) : Eff MapState :=
  match s.selectedPosition, decide (trim s.reportDescription = "") with
  | none, _ => do
    toastError "Please provide location and description"
    pure s
  | some _, true => do
    toastError "Please provide location and description"
    pure s
  | some selectedPosition, false => do
    let loadingState : MapState := { s with loading := true }
    let settled : MapState ←
      try
        let reportData : ReportData ←
          match user with
          | none => throw nullPropertyError
          | some user =>
            pure
              { lat := selectedPosition.lat
                lng := selectedPosition.lng
                category := s.selectedCategory
                description := trim s.reportDescription
                userName := orString user.displayName "Anonymous"
                userId := user.uid
                timestamp := ServerTimestamp.sentinel
                hasImage := s.reportImage.isSome }
        sdkCall env (.addReport reportData) fun backend =>
          .ok ((), { backend with ecoReports := backend.ecoReports ++ [reportData] })
        updateUserPoints env user (some 10)
        toastSuccess "Report submitted successfully! +10 eco points earned 🌍"
        let resetState : MapState :=
          { loadingState with
            showReportModal := false
            selectedPosition := none
            reportDescription := ""
            reportImage := none
            imagePreview := ""
            selectedCategory := "trash" }
        fetchReportsStart
        pure resetState
      catch _ => do
        consoleError "Error submitting report:"
        toastError "Failed to submit report"
        pure loadingState
    pure { settled with loading := false }

/-- What can happen to the `Map` page: its handlers and the continuations of its
requests.  A category button exists for each entry of `categoryIcons` and for nothing
else; `submitClicked` carries the surroundings in which `submitReport` runs. -/
inductive MapEvent where
  | mapClicked (latlng : LatLng)
  | imageChosen (file : Option File)
  | imageRemoved
  | modalClosed
  | categoryClicked (index : Fin categoryKeys.length)
  | descriptionTyped (text : String)
  | filterChanged (value : String)
  | reportsFetched (outcome : Except JsError (List Report))
  | submitClicked (env : SdkEnv) (user : Option User) (world : World)

/-- The state of the `Map` page after an event. -/
def MapState.after (s : MapState) : MapEvent → MapState
  | .mapClicked latlng => handleMapClick s latlng
  | .imageChosen file => handleImageUpload s file
  | .imageRemoved => { s with reportImage := none, imagePreview := "" }
  | .modalClosed => { s with showReportModal := false }
  | .categoryClicked index => { s with selectedCategory := categoryKeys.get index }
  | .descriptionTyped text => { s with reportDescription := text }
  | .filterChanged value => { s with filterCategory := value }
  | .reportsFetched outcome => fetchReportsSettle s outcome
  | .submitClicked env user world =>
    match ((submitReport env user s).run world).1 with
    | .ok settled => settled
    | .error _ => s

/-- The states of the `Map` page reachable from the initial one through events. -/
inductive MapState.Reachable : MapState → Prop where
  | initial : MapState.Reachable MapState.initial
  | step {s : MapState} (event : MapEvent) :
      MapState.Reachable s → MapState.Reachable (s.after event)

/-- A filled-in report form used in the examples. -/
def sampleForm : MapState :=
  { MapState.initial with
    showReportModal := true
    selectedPosition := some { lat := 40.75, lng := -73.98 }
    reportDescription := "Overflowing bin"
    selectedCategory := "pollution" }

/-! ## `Upload.jsx` -/

/-- The `useState` cells of the `Upload` component. -/
structure UploadState where
  selectedFile : Option File
  previewUrl : String
  analysisMode : String
  loading : Bool
  result : Option Analysis
  deriving DecidableEq

/-- Initial values of the `useState` cells of `Upload`. -/
def UploadState.initial : UploadState where
  selectedFile := none
  previewUrl := ""
  analysisMode := "plant"
  loading := false
  result := none

/-- The method `String.prototype.startsWith`. -/
def startsWith (text start : String) : Bool := start.data.isPrefixOf text.data

/-- The handler `handleFileSelect(event)`; `file` is `event.target.files[0]`. -/
def handleFileSelect (s : UploadState) (file : Option File) : UploadState :=
  match file with
  | some file =>
    { s with selectedFile := some file, previewUrl := file.objectUrl, result := none }
  | none => s

/-- The handler `handleDrop(event)`; `file` is `event.dataTransfer.files[0]`. -/
def handleDrop (s : UploadState) (file : Option File) : UploadState :=
  match file with
  | some file =>
    if startsWith file.type "image/" then
      { s with selectedFile := some file, previewUrl := file.objectUrl, result := none }
    else s
  | none => s

/-- The handler `resetUpload`. -/
def resetUpload (s : UploadState) : UploadState :=
  { s with selectedFile := none, previewUrl := "", result := none }

/-- The `catch` and `finally` blocks of the `onloadend` callback, entered with the page
state as it stands when the error is thrown. -/
def analysisFailed (s : UploadState) : Eff UploadState := do
  consoleError "Analysis error:"
  toastError "Analysis failed. Please try again."
  pure { s with loading := false }

/-- The function `analyzeFile` together with its `onloadend` callback, run to completion
with no other event in between.  `readAsDataURL` does not throw on a `File`, so the outer
`catch` is not entered.  An error of `analyzeImage` is thrown before `setResult`, any
later one after it.  The page's `updateUserPoints` is the one of the auth context. -/
def analyzeFile (env : SdkEnv) (user : Option User) (rand : Nat → ℚ) (s : UploadState) :
    Eff UploadState :=
  match s.selectedFile with
  | none => pure s
  | some selectedFile =>
    let loadingState : UploadState := { s with loading := true }
    let base64Image := selectedFile.dataUrl
    match (analyzeImage (base64Image.getD "") s.analysisMode rand).value with
    | .error _ => analysisFailed loadingState
    | .ok analysis =>
      let withResult : UploadState := { loadingState with result := some analysis }
      do
        try
          let record : AnalysisRecord ←
            match user with
            | none => throw nullPropertyError
            | some user =>
              pure
                { userId := user.uid
                  mode := s.analysisMode
                  result := analysis
                  timestamp := ServerTimestamp.sentinel
                  imageUrl := base64Image }
          sdkCall env (.addAnalysis record) fun backend =>
            .ok ((), { backend with analyses := backend.analyses ++ [record] })
          updateUserPoints env user (some 5)
          toastSuccess "Analysis completed! ðŸŒ±"
          pure { withResult with loading := false }
        catch _ =>
          analysisFailed withResult

/-- What can happen to the `Upload` page: its handlers; there is one mode button for
'plant' and one for 'trash'. -/
inductive UploadEvent where
  | fileSelected (file : Option File)
  | fileDropped (file : Option File)
  | plantModeClicked
  | trashModeClicked
  | resetClicked
  | analyzeClicked (env : SdkEnv) (user : Option User) (rand : Nat → ℚ) (world : World)

/-- The state of the `Upload` page after an event. -/
def UploadState.after (s : UploadState) : UploadEvent → UploadState
  | .fileSelected file => handleFileSelect s file
  | .fileDropped file => handleDrop s file
  | .plantModeClicked => { s with analysisMode := "plant" }
  | .trashModeClicked => { s with analysisMode := "trash" }
  | .resetClicked => resetUpload s
  | .analyzeClicked env user rand world =>
    match ((analyzeFile env user rand s).run world).1 with
    | .ok settled => settled
    | .error _ => s

/-- The states of the `Upload` page reachable from the initial one through events. -/
inductive UploadState.Reachable : UploadState → Prop where
  | initial : UploadState.Reachable UploadState.initial
  | step {s : UploadState} (event : UploadEvent) :
      UploadState.Reachable s → UploadState.Reachable (s.after event)

/-- A picked image used in the examples. -/
def sampleFile : File where
  name := "leaf.png"
  type := "image/png"
  objectUrl := "blob:leaf"
  dataUrl := some "data:image/png;base64,AAAA"

/-- A signed-in user whose display name equals that of the first mock leaderboard row. -/
def namesakeUser : User where
  uid := "uid-namesake"
  displayName := some "EcoChampion2024"
  email := some "champion@example.org"
  photoURL := none

/-! ## `Profile.jsx` -/

/-- A document read from a collection: `{ id: doc.id, ...doc.data() }`. -/
structure StoredDoc (α : Type) where
  id : String
  data : α
  deriving DecidableEq

/-- The object handed to `setUserStats`. -/
structure UserStats where
  totalAnalyses : Int
  plantAnalyses : Int
  wasteAnalyses : Int
  totalReports : Int
  totalPoints : Int
  level : Int
  streak : Int
  joinDate : Int
  deriving DecidableEq

/-- An element of `recentActivity`: a fetched analysis or an entry of `mockActivity`. -/
inductive Activity where
  | stored (doc : StoredDoc AnalysisRecord)
  | mock (type : String) (mode : Option String) (description : String) (date : Int)
  deriving DecidableEq

/-- An element of `allAchievements`. -/
structure Achievement where
  id : String
  name : String
  description : String
  icon : String
  unlocked : Bool
  date : Option Int
  deriving DecidableEq

/-- The value of the `editForm` cell. -/
structure EditForm where
  displayName : String
  bio : String
  deriving DecidableEq

/-- The `useState` cells of the `Profile` component. -/
structure ProfileState where
  userStats : Option UserStats
  recentActivity : List Activity
  achievements : List Achievement
  isEditing : Bool
  editForm : EditForm
  loading : Bool
  deriving DecidableEq

/-- Initial values of the `useState` cells of `Profile`. -/
def ProfileState.initial (user : Option User) : ProfileState where
  userStats := none
  recentActivity := []
  achievements := []
  isEditing := false
  editForm := { displayName := orString (user.bind User.displayName) "", bio := "" }
  loading := true

/-- What one run of `fetchProfileData` leaves: the cells and the `console.error` labels. -/
structure ProfileFetch where
  state : ProfileState
  consoleErrors : List String
  deriving DecidableEq

/-- The expression `cond ? new Date(Date.now() - ago) : null` together with the number of
clock readings made so far: the clock is read only when `cond` holds. -/
def dateIf (cond : Bool) (clock : Nat → Int) (readings : Nat) (ago : Int) :
    Option Int × Nat :=
  if cond then (some (clock readings - ago), readings + 1) else (none, readings)

/-- The function `fetchProfileData`, run to completion.  `s` holds the cells as the
render that created the function saw them (`userStats` in the code is that value),
`snapshots` is the settled `Promise.all` of the two `getDocs` queries for the user's
analyses and reports, `creationTime` is `user.metadata?.creationTime` as a date.  The five
draws are taken in source order: plant, waste, reports, points, streak. -/
def fetchProfileData (user : Option User) (creationTime : Option Int) (s : ProfileState)
    (snapshots :
      Except JsError (List (StoredDoc AnalysisRecord) × List (StoredDoc ReportData)))
    (rand : Nat → ℚ) (clock : Nat → Int) : ProfileFetch :=
  match user with
  | none => { state := s, consoleErrors := [] }
  | some _ =>
    match snapshots with
    | .error _ =>
      { state := { s with loading := false }
        consoleErrors := ["Error fetching profile data:"] }
    | .ok (analyses, reports) =>
      let plantAnalyses : Int :=
        (analyses.filter fun a => a.data.mode == "plant").length + mathFloor (rand 0 * 15)
      let wasteAnalyses : Int :=
        (analyses.filter fun a => a.data.mode == "trash").length + mathFloor (rand 1 * 20)
      let totalReports : Int := reports.length + mathFloor (rand 2 * 10)
      let totalPoints : Int :=
        analyses.length * 5 + reports.length * 10 + mathFloor (rand 3 * 200)
      let joined := dateIf creationTime.isNone clock 0 0
      let newStats : UserStats :=
        { totalAnalyses := plantAnalyses + wasteAnalyses
          plantAnalyses := plantAnalyses
          wasteAnalyses := wasteAnalyses
          totalReports := totalReports
          totalPoints := totalPoints
          level := mathFloor ((totalPoints : ℚ) / 200) + 1
          streak := mathFloor (rand 4 * 15) + 1
          joinDate := creationTime.getD (joined.1.getD 0) }
      let k := joined.2
      let mockActivity : List Activity :=
        [.mock "analysis" (some "plant") "Analyzed plant health" (clock k - 86400000),
         .mock "report" none "Reported littering issue" (clock (k + 1) - 172800000),
         .mock "analysis" (some "trash") "Sorted waste items" (clock (k + 2) - 259200000),
         .mock "achievement" none "Earned Plant Expert badge" (clock (k + 3) - 345600000)]
      let recent : List Activity :=
        arraySlice ((arraySlice analyses 0 3).map Activity.stored ++ mockActivity) 0 5
      let ecoWarrior := dateIf (decide (analyses.length > 0)) clock (k + 5) 432000000
      let plantExpert := dateIf (decide (plantAnalyses ≥ 10)) clock ecoWarrior.2 259200000
      let wasteWizard := dateIf (decide (wasteAnalyses ≥ 20)) clock plantExpert.2 172800000
      let reporter := dateIf (decide (totalReports ≥ 5)) clock wasteWizard.2 86400000
      let allAchievements : List Achievement :=
        [{ id := "newcomer", name := "Newcomer", description := "Joined EcoAI Pro",
           icon := "⭐", unlocked := true, date := some (clock (k + 4) - 604800000) },
         { id := "eco-warrior", name := "Eco Warrior",
           description := "Complete first analysis", icon := "⚡",
           unlocked := decide (analyses.length > 0), date := ecoWarrior.1 },
         { id := "plant-expert", name := "Plant Expert", description := "Analyze 10 plants",
           icon := "🌱", unlocked := decide (plantAnalyses ≥ 10), date := plantExpert.1 },
         { id := "waste-wizard", name := "Waste Wizard",
           description := "Sort 20 waste items", icon := "♻️",
           unlocked := decide (wasteAnalyses ≥ 20), date := wasteWizard.1 },
         { id := "reporter", name := "Community Reporter",
           description := "Submit 5 map reports", icon := "🗺️",
           unlocked := decide (totalReports ≥ 5), date := reporter.1 },
         { id := "streak-keeper", name := "Streak Keeper",
           description := "Maintain 7-day streak", icon := "🔥",
           unlocked :=
             match s.userStats with
             | some stats => decide (stats.streak ≥ 7)
             | none => false,
           date := none },
         { id := "level-up", name := "Level Up", description := "Reach level 5",
           icon := "🏆", unlocked := false, date := none }]
      { state :=
          { s with
            userStats := some newStats
            recentActivity := recent
            achievements := allAchievements
            loading := false }
        consoleErrors := [] }

/-- The achievement with the given id among those a run stored. -/
def achievementOf (fetch : ProfileFetch) (id : String) : Option Achievement :=
  fetch.state.achievements.find? fun achievement => achievement.id == id

/-- A stored report of the sample user, used in the examples. -/
def sampleReport : StoredDoc ReportData where
  id := "report-1"
  data :=
    { lat := 40.75, lng := -73.98, category := "trash", description := "Overflowing bin",
      userName := "Ann", userId := "uid-ann", timestamp := ServerTimestamp.sentinel,
      hasImage := false }

/-! ## `Login.jsx` -/

/-- The value of the `formData` cell. -/
structure LoginForm where
  email : String
  password : String
  deriving DecidableEq

/-- The value of the `errors` cell: a message per field, `none` for an absent key. -/
structure LoginErrors where
  email : Option String
  password : Option String
  deriving DecidableEq

/-- The `useState` cells of the `Login` component. -/
structure LoginState where
  formData : LoginForm
  showPassword : Bool
  loading : Bool
  errors : LoginErrors
  deriving DecidableEq

/-- Initial values of the `useState` cells of `Login`. -/
def LoginState.initial : LoginState where
  formData := { email := "", password := "" }
  showPassword := false
  loading := false
  errors := { email := none, password := none }

/-- The regular-expression class `\S`: any character that `\s` (white space and line
terminators, the characters `trim` strips) does not match. -/
def isNonWhitespace (c : Char) : Bool := !isTrimChar c

/-- The list starts with `.` followed by a `\S` character. -/
def startsWithDot (chars : List Char) : Bool :=
  match chars with
  | dot :: next :: _ => dot == '.' && isNonWhitespace next
  | _ => false

/-- A match of `\S+\.\S+` begins at the head of the list. -/
def matchAfterAt : List Char → Bool
  | [] => false
  | c :: rest => isNonWhitespace c && (startsWithDot rest || matchAfterAt rest)

/-- The list starts with `@` followed by a match of `\S+\.\S+`. -/
def startsWithAt (chars : List Char) : Bool :=
  match chars with
  | sign :: rest => sign == '@' && matchAfterAt rest
  | [] => false

/-- The test `/\S+@\S+\.\S+/.test(text)` on the characters of the text: somewhere a `\S`
character stands right before an `@` that a match of `\S+\.\S+` follows. -/
def emailPatternTest : List Char → Bool
  | [] => false
  | c :: rest => (isNonWhitespace c && startsWithAt rest) || emailPatternTest rest

/-- The function `validateForm` of `Login`: the object `newErrors` it stores with
`setErrors` and its return value `Object.keys(newErrors).length === 0`. -/
def Login.validateForm (formData : LoginForm) : LoginErrors × Bool :=
  let newErrors : LoginErrors :=
    { email :=
        if formData.email = "" then some "Email is required"
        else if !emailPatternTest formData.email.data then some "Email is invalid"
        else none
      password := if formData.password = "" then some "Password is required" else none }
  (newErrors, newErrors.email.isNone && newErrors.password.isNone)

/-- What one run of `handleSubmit` of `Login` did: the cells it left, the arguments of
its calls to `signIn`, and the route handed to `navigate`. -/
structure LoginResult where
  state : LoginState
  signInCalls : List (String × String)
  navigatedTo : Option String
  deriving DecidableEq

/-- The function `handleSubmit` of `Login`, run to completion with no other event in
between; `signIn` is the one of the auth context. -/
def Login.handleSubmit (env : SdkEnv) (s : LoginState) : Eff LoginResult :=
  let validated := Login.validateForm s.formData
  let checked : LoginState := { s with errors := validated.1 }
  if !validated.2 then
    pure { state := checked, signInCalls := [], navigatedTo := none }
  else do
    try
      let _ ← signIn env s.formData.email s.formData.password
      pure
        { state := { checked with loading := false }
          signInCalls := [(s.formData.email, s.formData.password)]
          navigatedTo := some "/dashboard" }
    catch _ => do
      consoleError "Login error:"
      pure
        { state := { checked with loading := false }
          signInCalls := [(s.formData.email, s.formData.password)]
          navigatedTo := none }

/-- The shape C27 words: the text contains one or more non-whitespace characters, then
'@', then one or more non-whitespace characters, then '.', then one or more
non-whitespace characters. -/
def ContainsEmailShape (text : String) : Prop :=
  ∃ before name domain suffix after : List Char,
    text.data = before ++ name ++ '@' :: domain ++ '.' :: suffix ++ after ∧
    name ≠ [] ∧ domain ≠ [] ∧ suffix ≠ [] ∧
    (∀ c ∈ name, isTrimChar c = false) ∧ (∀ c ∈ domain, isTrimChar c = false) ∧
    (∀ c ∈ suffix, isTrimChar c = false)

/-! ## Lemmas on the primitives and the helpers -/

theorem includesChars_iff (needle hay : List Char) :
    includesChars needle hay = true ↔ needle <:+: hay := by
  induction hay with
  | nil => simp [includesChars, List.isEmpty_iff]
  | cons c rest ih =>
    simp only [includesChars, Bool.or_eq_true, ih, List.infix_cons_iff,
      List.isPrefixOf_iff_prefix]

theorem includes_iff (hay needle : String) :
    includes hay needle = true ↔ needle.data <:+: hay.data :=
  includesChars_iff _ _

theorem includes_eq_decide (hay needle : String) :
    includes hay needle = decide (needle.data <:+: hay.data) := by
  rw [Bool.eq_iff_iff, includes_iff, decide_eq_true_iff]

theorem mathFloor_mul_length_bounds (n : Nat) (r : ℚ) (h0 : 0 ≤ r) (h1 : r < 1)
    (hn : 0 < n) : 0 ≤ mathFloor (r * n) ∧ mathFloor (r * n) < n := by
  have hn' : (0 : ℚ) < n := by exact_mod_cast hn
  constructor
  · exact Int.floor_nonneg.mpr (mul_nonneg h0 hn'.le)
  · have : r * n < n := by nlinarith
    rw [mathFloor, Int.floor_lt]
    exact_mod_cast this

theorem arrayIndex_of_bounds {α : Type} (xs : List α) (i : Int) (h0 : 0 ≤ i)
    (h1 : i < xs.length) : ∃ x, arrayIndex xs i = some x ∧ x ∈ xs := by
  have hlt : i.toNat < xs.length := by omega
  refine ⟨xs.get ⟨i.toNat, hlt⟩, ?_, List.get_mem _ _ _⟩
  simp [arrayIndex, h0, List.get?_eq_get hlt]

theorem getRandomResponse_mem (responses : List String) (r : ℚ) (h0 : 0 ≤ r) (h1 : r < 1)
    (hne : responses ≠ []) :
    ∃ s, getRandomResponse responses r = some s ∧ s ∈ responses := by
  have hpos : 0 < responses.length := List.length_pos.mpr hne
  obtain ⟨hlo, hhi⟩ := mathFloor_mul_length_bounds responses.length r h0 h1 hpos
  exact arrayIndex_of_bounds responses _ hlo hhi

theorem keywordBucket_ne_nil (lowered : String) : keywordBucket lowered ≠ [] := by
  unfold keywordBucket
  split_ifs <;>
    simp [greetings, plant_care, recycling, sustainability, defaultResponses]

theorem getChatbotResponse_value (toLowerCase : String → String) (message : String)
    (rand : Nat → ℚ) :
    (getChatbotResponse toLowerCase message rand).value =
      getRandomResponse (keywordBucket (toLowerCase message)) (rand 1) := by
  simp only [getChatbotResponse, keywordBucket, containsAny, includes_eq_decide,
    List.any_cons, List.any_nil, Bool.or_false, Bool.or_assoc]
  split_ifs <;> rfl

theorem arraySlice_zero_eq_take {α : Type} (xs : List α) (k : Int) (h0 : 0 ≤ k) :
    arraySlice xs 0 k = xs.take k.toNat := by
  have hk : ¬ k < 0 := by omega
  simp only [arraySlice, sliceBound, hk, if_false, lt_self_iff_false, Int.toNat_zero,
    Nat.zero_min, List.drop_zero, Nat.sub_zero]
  rw [List.take_eq_take, min_assoc, min_self]

theorem log_two_eq (x : ℚ) (e : Int) (h1 : (2 : ℚ) ^ e ≤ x) (h2 : x < (2 : ℚ) ^ (e + 1)) :
    Int.log 2 x = e := by
  have hx : 0 < x := lt_of_lt_of_le (by positivity) h1
  have ha : e ≤ Int.log 2 x :=
    (Int.zpow_le_iff_le_log (by norm_num) hx).1 (by exact_mod_cast h1)
  have hb : Int.log 2 x < e + 1 :=
    (Int.lt_zpow_iff_log_lt (by norm_num) hx).1 (by exact_mod_cast h2)
  omega

theorem roundHalfEven_le (x : ℚ) : (roundHalfEven x : ℚ) ≤ x + 1 / 2 := by
  have hfl : ((Int.floor x : Int) : ℚ) ≤ x := Int.floor_le x
  unfold roundHalfEven
  simp only
  split_ifs with h1 h2 h3
  · linarith
  · push_cast; linarith [Int.lt_floor_add_one x]
  · linarith
  · push_cast; linarith

theorem roundHalfEven_nonneg (x : ℚ) (hx : 0 ≤ x) : 0 ≤ roundHalfEven x := by
  have hfl : 0 ≤ Int.floor x := Int.floor_nonneg.2 hx
  unfold roundHalfEven
  simp only
  split_ifs <;> omega

theorem roundToDouble_nonneg (x : ℚ) (hx : 0 ≤ x) : 0 ≤ roundToDouble x := by
  unfold roundToDouble
  split_ifs with h0 hpos
  · exact le_refl _
  · have hs : 0 ≤ x / 2 ^ ulpExponent x := by positivity
    have hn : (0 : ℚ) ≤ roundHalfEven (x / 2 ^ ulpExponent x) := by
      exact_mod_cast roundHalfEven_nonneg _ hs
    positivity
  · exact absurd (lt_of_le_of_ne hx (Ne.symm h0)) hpos

/-- Rounding a number of the normal range, given its binade. -/
theorem roundToDouble_pos_eq (x : ℚ) (e : Int) (h1 : (2 : ℚ) ^ e ≤ x)
    (h2 : x < (2 : ℚ) ^ (e + 1)) (he : -1022 ≤ e) :
    roundToDouble x = roundHalfEven (x / 2 ^ (e - 52)) * 2 ^ (e - 52) := by
  have hx : 0 < x := lt_of_lt_of_le (by positivity) h1
  have hu : ulpExponent x = e - 52 := by
    unfold ulpExponent
    rw [log_two_eq x e h1 h2, max_eq_left he]
  unfold roundToDouble
  rw [if_neg (ne_of_gt hx), if_pos hx, hu]

theorem roundToDouble_pos_le (x : ℚ) (hx : 0 < x) :
    roundToDouble x ≤ x + 2 ^ ulpExponent x / 2 := by
  unfold roundToDouble
  rw [if_neg (ne_of_gt hx), if_pos hx]
  have hp : (0 : ℚ) < 2 ^ ulpExponent x := by positivity
  have h := roundHalfEven_le (x / 2 ^ ulpExponent x)
  calc (roundHalfEven (x / 2 ^ ulpExponent x) : ℚ) * 2 ^ ulpExponent x
      ≤ (x / 2 ^ ulpExponent x + 1 / 2) * 2 ^ ulpExponent x :=
        mul_le_mul_of_nonneg_right h (le_of_lt hp)
    _ = x + 2 ^ ulpExponent x / 2 := by field_simp; ring

/-- The literal `0.4` denotes the double 3602879701896397 / 2^53, just above 2/5. -/
theorem roundToDouble_literal :
    roundToDouble 0.4 = 3602879701896397 / 9007199254740992 ∧
      isDouble (3602879701896397 / 9007199254740992) = true := by
  refine ⟨?_, ?_⟩
  · rw [roundToDouble_pos_eq 0.4 (-2) (by norm_num) (by norm_num) (by norm_num)]
    norm_num [roundHalfEven]
  · rw [isDouble, decide_eq_true_iff]
    refine ⟨?_, ?_⟩
    · rw [roundToDouble_pos_eq _ (-2) (by norm_num) (by norm_num) (by norm_num)]
      norm_num [roundHalfEven]
    · rw [abs_of_pos (by norm_num)]; norm_num

/-- Up to three times the largest double below 1, the rounded value stays below 3. -/
theorem roundToDouble_lt_three (x : ℚ) (h0 : 0 ≤ x) (h3 : x ≤ 3 - 3 / 2 ^ 53) :
    roundToDouble x < 3 := by
  rcases eq_or_lt_of_le h0 with h | hx
  · rw [← h]; norm_num [roundToDouble]
  have h1 : (2 : ℚ) ^ Int.log 2 x ≤ x := by
    exact_mod_cast Int.zpow_log_le_self (by norm_num) hx
  have h2 : x < (2 : ℚ) ^ (Int.log 2 x + 1) := by
    exact_mod_cast Int.lt_zpow_succ_log_self (by norm_num) x
  have he : Int.log 2 x < 2 := by
    have : (2 : ℚ) ^ Int.log 2 x < 2 ^ (2 : Int) := by
      refine lt_of_le_of_lt h1 (lt_of_le_of_lt h3 ?_); norm_num
    exact (zpow_lt_zpow_iff_right₀ (by norm_num)).1 this
  rcases (by omega : Int.log 2 x = 1 ∨ Int.log 2 x ≤ 0) with he1 | he0
  · rw [he1] at h1 h2
    rw [roundToDouble_pos_eq x 1 h1 h2 (by norm_num)]
    have hr := roundHalfEven_le (x / 2 ^ ((1 : Int) - 52))
    have hn : roundHalfEven (x / 2 ^ ((1 : Int) - 52)) ≤ 3 * 2 ^ 51 - 1 := by
      have : (roundHalfEven (x / 2 ^ ((1 : Int) - 52)) : ℚ) < 3 * 2 ^ 51 := by
        refine lt_of_le_of_lt hr ?_
        norm_num at h3 ⊢
        linarith
      have : roundHalfEven (x / 2 ^ ((1 : Int) - 52)) < 3 * 2 ^ 51 := by exact_mod_cast this
      omega
    have hq : (roundHalfEven (x / 2 ^ ((1 : Int) - 52)) : ℚ) ≤ 3 * 2 ^ 51 - 1 := by
      exact_mod_cast hn
    norm_num at hq ⊢
    linarith
  · have hle := roundToDouble_pos_le x hx
    have hu : (2 : ℚ) ^ ulpExponent x ≤ 2 ^ (-52 : Int) := by
      refine zpow_le_zpow_right₀ (by norm_num) ?_
      unfold ulpExponent
      have : max (Int.log 2 x) (-1022) ≤ 0 := max_le he0 (by norm_num)
      omega
    have hx2 : x < 2 := by
      refine lt_of_lt_of_le h2 ?_
      calc (2 : ℚ) ^ (Int.log 2 x + 1) ≤ 2 ^ (1 : Int) :=
            zpow_le_zpow_right₀ (by norm_num) (by omega)
        _ = 2 := by norm_num
    norm_num at hu
    linarith

theorem isDouble_fixed (r : ℚ) (hd : isDouble r = true) : roundToDouble r = r := by
  have h : roundToDouble r = r ∧ |r| < 2 ^ 1024 := by simpa [isDouble] using hd
  exact h.1

/-- A double below 1 is at most 1 - 2^(-53). -/
theorem isDouble_lt_one (r : ℚ) (hd : isDouble r = true) (h0 : 0 ≤ r) (h1 : r < 1) :
    r ≤ 1 - 1 / 2 ^ 53 := by
  rcases eq_or_lt_of_le h0 with h | hx
  · rw [← h]; norm_num
  have hlo : (2 : ℚ) ^ Int.log 2 r ≤ r := by
    exact_mod_cast Int.zpow_log_le_self (by norm_num) hx
  have hhi : r < (2 : ℚ) ^ (Int.log 2 r + 1) := by
    exact_mod_cast Int.lt_zpow_succ_log_self (by norm_num) r
  have he : Int.log 2 r < 0 := by
    have : (2 : ℚ) ^ Int.log 2 r < 2 ^ (0 : Int) := by
      refine lt_of_le_of_lt hlo (lt_of_lt_of_le h1 ?_); norm_num
    exact (zpow_lt_zpow_iff_right₀ (by norm_num)).1 this
  rcases (by omega : Int.log 2 r = -1 ∨ Int.log 2 r ≤ -2) with he1 | he2
  · rw [he1] at hlo hhi
    have hfix : roundToDouble r = r := isDouble_fixed r hd
    rw [roundToDouble_pos_eq r (-1) hlo hhi (by norm_num)] at hfix
    have hn : roundHalfEven (r / 2 ^ ((-1 : Int) - 52)) ≤ 2 ^ 53 - 1 := by
      have : (roundHalfEven (r / 2 ^ ((-1 : Int) - 52)) : ℚ) < 2 ^ 53 := by
        norm_num at hfix ⊢
        linarith
      have : roundHalfEven (r / 2 ^ ((-1 : Int) - 52)) < 2 ^ 53 := by exact_mod_cast this
      omega
    have hq : (roundHalfEven (r / 2 ^ ((-1 : Int) - 52)) : ℚ) ≤ 2 ^ 53 - 1 := by
      exact_mod_cast hn
    norm_num at hfix hq ⊢
    linarith
  · have : r < 1 / 2 := by
      refine lt_of_lt_of_le hhi ?_
      calc (2 : ℚ) ^ (Int.log 2 r + 1) ≤ 2 ^ (-1 : Int) :=
            zpow_le_zpow_right₀ (by norm_num) (by omega)
        _ = 1 / 2 := by norm_num
    norm_num
    linarith

/-- For a double draw in [0,1) the floor of the rounded product with 3 is 0, 1 or 2. -/
theorem mathFloor_doubleMul_three_bounds (r : ℚ) (hd : isDouble r = true) (h0 : 0 ≤ r)
    (h1 : r < 1) : 0 ≤ mathFloor (doubleMul r 3) ∧ mathFloor (doubleMul r 3) ≤ 2 := by
  have hmax := isDouble_lt_one r hd h0 h1
  have hlt : roundToDouble (r * 3) < 3 :=
    roundToDouble_lt_three (r * 3) (by positivity) (by linarith)
  have hge : 0 ≤ roundToDouble (r * 3) := roundToDouble_nonneg (r * 3) (by positivity)
  unfold mathFloor doubleMul
  constructor
  · exact Int.floor_nonneg.2 hge
  · have : Int.floor (roundToDouble (r * 3)) < 3 := Int.floor_lt.2 (by exact_mod_cast hlt)
    omega

/-- The double nearest to 2/3 is a double; its product with 3 is the tie 2 - 2^(-53),
which rounds to 2. -/
theorem doubleMul_near_two_thirds :
    isDouble (6004799503160661 / 9007199254740992) = true ∧
      roundToDouble (2 / 3) = 6004799503160661 / 9007199254740992 ∧
      doubleMul (6004799503160661 / 9007199254740992) 3 = 2 := by
  refine ⟨?_, ?_, ?_⟩
  · rw [isDouble, decide_eq_true_iff]
    refine ⟨?_, ?_⟩
    · rw [roundToDouble_pos_eq _ (-1) (by norm_num) (by norm_num) (by norm_num)]
      norm_num [roundHalfEven]
    · rw [abs_of_pos (by norm_num)]; norm_num
  · rw [roundToDouble_pos_eq _ (-1) (by norm_num) (by norm_num) (by norm_num)]
    norm_num [roundHalfEven]
  · unfold doubleMul
    rw [roundToDouble_pos_eq _ 0 (by norm_num) (by norm_num) (by norm_num)]
    norm_num [roundHalfEven]

/-- One half is a double and its product with 3 is exact. -/
theorem doubleMul_one_half :
    isDouble (1 / 2) = true ∧ doubleMul (1 / 2) 3 = 3 / 2 := by
  refine ⟨?_, ?_⟩
  · rw [isDouble, decide_eq_true_iff]
    refine ⟨?_, ?_⟩
    · rw [roundToDouble_pos_eq _ (-1) (by norm_num) (by norm_num) (by norm_num)]
      norm_num [roundHalfEven]
    · rw [abs_of_pos (by norm_num)]; norm_num
  · unfold doubleMul
    rw [roundToDouble_pos_eq _ 0 (by norm_num) (by norm_num) (by norm_num)]
    norm_num [roundHalfEven]

theorem mathRound_affine_bounds (a w : Int) (r : ℚ) (h0 : 0 ≤ r) (h1 : r < 1)
    (hw : 0 ≤ w) :
    a ≤ mathRound (a + r * w) ∧ mathRound (a + r * w) ≤ a + w := by
  have hw' : (0 : ℚ) ≤ w := by exact_mod_cast hw
  have hrw : r * w ≤ w := by nlinarith
  have hrw0 : 0 ≤ r * w := mul_nonneg h0 hw'
  constructor
  · rw [mathRound, Int.le_floor]
    linarith
  · have : mathRound (a + r * w) < a + w + 1 := by
      rw [mathRound, Int.floor_lt]
      push_cast
      linarith
    omega

theorem mathRound_scaled_bounds (w : Int) (r : ℚ) (h0 : 0 ≤ r) (h1 : r < 1)
    (hw : 0 ≤ w) :
    0 ≤ mathRound (r * w) ∧ mathRound (r * w) ≤ w := by
  have h := mathRound_affine_bounds 0 w r h0 h1 hw
  simpa using h

theorem dropWhile_eq_nil_of_all {α : Type} (p : α → Bool) (l : List α)
    (h : ∀ x ∈ l, p x = true) : l.dropWhile p = [] := by
  induction l with
  | nil => rfl
  | cons a t ih =>
    have ha : p a = true := h a (List.mem_cons_self a t)
    simp only [List.dropWhile_cons, ha, if_true]
    exact ih fun x hx => h x (List.mem_cons_of_mem a hx)

/-- The trimmed form is empty exactly for texts made of strippable characters only
(the empty text included). -/
theorem trim_eq_empty_iff (text : String) :
    trim text = "" ↔ ∀ c ∈ text.data, isTrimChar c = true := by
  have hmk : ∀ l : List Char, String.mk l = "" ↔ l = [] := by
    intro l
    constructor
    · intro h
      have := congrArg String.data h
      simpa using this
    · rintro rfl
      rfl
  rw [trim, hmk, List.reverse_eq_nil_iff]
  constructor
  · intro h c hc
    by_contra hcon
    have hne : text.data.dropWhile isTrimChar ≠ [] := by
      intro hnil
      rw [List.dropWhile_eq_nil_iff] at hnil
      exact hcon (hnil c hc)
    obtain ⟨a, t, hat⟩ := List.exists_cons_of_ne_nil hne
    have hhead : isTrimChar a = false := by
      have := List.head_dropWhile_not isTrimChar text.data hne
      simpa [hat] using this
    have hall := (List.dropWhile_eq_nil_iff).mp h
    have hmem : a ∈ (text.data.dropWhile isTrimChar).reverse := by
      rw [List.mem_reverse, hat]
      exact List.mem_cons_self a t
    have := hall a hmem
    rw [hhead] at this
    exact Bool.false_ne_true this
  · intro h
    rw [dropWhile_eq_nil_of_all _ _ h]
    rfl

set_option maxRecDepth 20000 in
theorem trim_quickAction_message (action : QuickAction) (haction : action ∈ quickActions) :
    trim action.message = action.message ∧ action.message ≠ "" := by
  simp only [quickActions, List.mem_cons, List.mem_singleton, List.not_mem_nil,
    or_false] at haction
  rcases haction with rfl | rfl | rfl | rfl <;> decide

theorem arraySort_perm {α : Type} (compareFn : α → α → Int) (xs : List α) :
    (arraySort compareFn xs).Perm xs :=
  List.perm_insertionSort _ xs

theorem leaderboard_perm (user : Option User) (timeFilter categoryFilter : String) :
    (fetchLeaderboardData user timeFilter categoryFilter).leaderboard.Perm
      (mockLeaderboard user) :=
  arraySort_perm _ _

@[simp] theorem run_pure {α : Type} (value : α) (world : World) :
    Eff.run (pure value : Eff α) world = (.ok value, world) := rfl

@[simp] theorem run_bind {α β : Type} (action : Eff α) (next : α → Eff β)
    (world : World) :
    Eff.run (action >>= next) world =
      match Eff.run action world with
      | (.ok value, world') => Eff.run (next value) world'
      | (.error e, world') => (.error e, world') := rfl

@[simp] theorem run_throw {α : Type} (e : JsError) (world : World) :
    Eff.run (throw e : Eff α) world = (.error e, world) := rfl

@[simp] theorem run_tryCatch {α : Type} (body : Eff α) (handler : JsError → Eff α)
    (world : World) :
    Eff.run (tryCatch body handler) world =
      match Eff.run body world with
      | (.ok value, world') => (.ok value, world')
      | (.error e, world') => Eff.run (handler e) world' := rfl

@[simp] theorem run_toastSuccess (message : String) (world : World) :
    Eff.run (toastSuccess message) world =
      (.ok (), { world with toasts := world.toasts ++ [Toast.success message] }) := rfl

@[simp] theorem run_toastError (message : String) (world : World) :
    Eff.run (toastError message) world =
      (.ok (), { world with toasts := world.toasts ++ [Toast.error message] }) := rfl

@[simp] theorem run_consoleError (label : String) (world : World) :
    Eff.run (consoleError label) world =
      (.ok (), { world with consoleErrors := world.consoleErrors ++ [label] }) := rfl

theorem run_sdkCall {α : Type} (env : SdkEnv) (call : SdkCall)
    (effect : Backend → Except JsError (α × Backend)) (world : World) :
    Eff.run (sdkCall env call effect) world =
      match env.faults world.calls.length with
      | some e => (.error e, { world with calls := world.calls ++ [call] })
      | none =>
        match effect world.backend with
        | .error e => (.error e, { world with calls := world.calls ++ [call] })
        | .ok (value, backend) =>
          (.ok value, { world with calls := world.calls ++ [call], backend := backend }) :=
  rfl


theorem signUp_settles (env : SdkEnv) (backend : Backend) (email password name : String) :
    ((signUp env email password name).run (World.start backend)).1
      = settledWith (firstFault env.faults 3)
          { user := { env.credentialUser with displayName := orNull (some name) } } ∧
    ((signUp env email password name).run (World.start backend)).2.toasts
      = notifiedWith (firstFault env.faults 3) "Welcome to EcoAI Pro! 🌍"
          JsError.message := by
  cases h0 : env.faults 0 <;> cases h1 : env.faults 1 <;> cases h2 : env.faults 2 <;>
    cases h3 : env.faults 3 <;> cases hb : backend.users env.credentialUser.uid <;>
    simp [signUp, createUserProfile, run_sdkCall, World.start, h0, h1, h2, h3, hb,
      applySet, applyUpdate, settledWith, notifiedWith, firstFault]

theorem signIn_settles (env : SdkEnv) (backend : Backend) (email password : String) :
    ((signIn env email password).run (World.start backend)).1
      = settledWith (firstFault env.faults 1) { user := env.credentialUser } ∧
    ((signIn env email password).run (World.start backend)).2.toasts
      = notifiedWith (firstFault env.faults 1) "Welcome back, Eco Warrior! 🌱"
          (fun _ => "Invalid credentials") := by
  cases h0 : env.faults 0 <;>
    simp [signIn, run_sdkCall, World.start, h0, settledWith, notifiedWith, firstFault]

theorem signInWithGoogle_settles (env : SdkEnv) (backend : Backend) :
    ((signInWithGoogle env).run (World.start backend)).1
      = settledWith (firstFault env.faults 2) { user := env.credentialUser } ∧
    ((signInWithGoogle env).run (World.start backend)).2.toasts
      = notifiedWith (firstFault env.faults 2) "Successfully signed in with Google! 🌍"
          (fun _ => "Google sign in failed") := by
  cases h0 : env.faults 0 <;> cases h1 : env.faults 1 <;> cases h2 : env.faults 2 <;>
    cases hb : backend.users env.credentialUser.uid <;>
    simp [signInWithGoogle, createUserProfile, run_sdkCall, World.start, h0, h1, h2, hb,
      applySet, applyUpdate, settledWith, notifiedWith, firstFault]

theorem logout_settles (env : SdkEnv) (backend : Backend) :
    ((logout env).run (World.start backend)).1 = settledWith (firstFault env.faults 1) () ∧
    ((logout env).run (World.start backend)).2.toasts
      = notifiedWith (firstFault env.faults 1) "See you later, Eco Warrior! 👋"
          (fun _ => "Sign out failed") := by
  cases h0 : env.faults 0 <;>
    simp [logout, run_sdkCall, World.start, h0, settledWith, notifiedWith, firstFault]

@[simp] theorem run_fetchReportsStart (world : World) :
    Eff.run fetchReportsStart world =
      (.ok (), { world with calls := world.calls ++ [SdkCall.getReports] }) := rfl


theorem categoryKeys_get_mem (index : Fin categoryKeys.length) :
    categoryKeys.get index ∈ categoryKeys :=
  List.get_mem _ _ _

theorem submitReport_selectedCategory (env : SdkEnv) (user : Option User) (s : MapState)
    (world : World) (settled : MapState)
    (hrun : ((submitReport env user s).run world).1 = .ok settled) :
    settled.selectedCategory = s.selectedCategory ∨ settled.selectedCategory = "trash" := by
  unfold submitReport at hrun
  split at hrun
  · simp at hrun
    left; rw [← hrun]
  · simp at hrun
    left; rw [← hrun]
  · cases user with
    | none =>
      simp at hrun
      left; rw [← hrun]
    | some u =>
      cases h0 : env.faults world.calls.length <;>
        cases h1 : env.faults (world.calls.length + 1) <;>
        cases hb : world.backend.users u.uid <;>
        simp [updateUserPoints, run_sdkCall, h0, h1, hb, applyUpdate] at hrun <;>
        subst hrun <;> simp

theorem submitReport_written_category (env : SdkEnv) (user : Option User) (s : MapState)
    (backend : Backend) (data : ReportData)
    (hcall : SdkCall.addReport data ∈
      ((submitReport env user s).run (World.start backend)).2.calls) :
    data.category = s.selectedCategory := by
  unfold submitReport at hcall
  split at hcall
  · simp [World.start] at hcall
  · simp [World.start] at hcall
  · cases user with
    | none => simp [World.start] at hcall
    | some u =>
      cases h0 : env.faults 0 <;> cases h1 : env.faults 1 <;>
        cases hb : backend.users u.uid <;>
        simp [updateUserPoints, run_sdkCall, World.start, h0, h1, hb, applyUpdate]
          at hcall <;>
        rw [hcall]

theorem reachable_selectedCategory (s : MapState) (hreach : s.Reachable) :
    s.selectedCategory ∈ categoryKeys := by
  induction hreach with
  | initial => simp [MapState.initial, categoryKeys]
  | @step s event _ ih =>
    cases event with
    | mapClicked latlng => exact ih
    | imageChosen file =>
      cases file with
      | none => exact ih
      | some f => exact ih
    | imageRemoved => exact ih
    | modalClosed => exact ih
    | categoryClicked index => exact categoryKeys_get_mem index
    | descriptionTyped text => exact ih
    | filterChanged value => exact ih
    | reportsFetched outcome =>
      cases outcome with
      | ok docs => exact ih
      | error e => exact ih
    | submitClicked env user world =>
      simp only [MapState.after]
      split
      · next settled hrun =>
        rcases submitReport_selectedCategory env user s world settled hrun with h | h
        · rw [h]; exact ih
        · rw [h]; simp [categoryKeys]
      · exact ih

theorem analyzeImage_valid_mode (imageBase64 mode : String) (rand : Nat → ℚ)
    (hmode : mode = "plant" ∨ mode = "trash") :
    ∃ analysis, (analyzeImage imageBase64 mode rand).value = .ok analysis := by
  rcases hmode with rfl | rfl
  · simp [analyzeImage, analyzeImageBody]
  · have hne : ("trash" : String) ≠ "plant" := by decide
    simp [analyzeImage, analyzeImageBody, hne]

theorem analyzeFile_analysisMode (env : SdkEnv) (user : Option User) (rand : Nat → ℚ)
    (s : UploadState) (world : World) (settled : UploadState)
    (hrun : ((analyzeFile env user rand s).run world).1 = .ok settled) :
    settled.analysisMode = s.analysisMode := by
  cases hf : s.selectedFile with
  | none =>
    simp [analyzeFile, hf] at hrun
    rw [← hrun]
  | some file =>
    cases ha : (analyzeImage (file.dataUrl.getD "") s.analysisMode rand).value with
    | error message =>
      simp [analyzeFile, hf, ha, analysisFailed] at hrun
      rw [← hrun]
    | ok analysis =>
      cases user with
      | none =>
        simp [analyzeFile, hf, ha, analysisFailed] at hrun
        rw [← hrun]
      | some u =>
        cases h0 : env.faults world.calls.length <;>
          cases h1 : env.faults (world.calls.length + 1) <;>
          cases hb : world.backend.users u.uid <;>
          simp [analyzeFile, hf, ha, analysisFailed, updateUserPoints, run_sdkCall, h0, h1,
            hb, applyUpdate] at hrun <;>
          rw [← hrun]

theorem analyzeFile_written_mode (env : SdkEnv) (user : Option User) (rand : Nat → ℚ)
    (s : UploadState) (backend : Backend) (record : AnalysisRecord)
    (hcall : SdkCall.addAnalysis record ∈
      ((analyzeFile env user rand s).run (World.start backend)).2.calls) :
    record.mode = s.analysisMode := by
  cases hf : s.selectedFile with
  | none => simp [analyzeFile, hf, World.start] at hcall
  | some file =>
    cases ha : (analyzeImage (file.dataUrl.getD "") s.analysisMode rand).value with
    | error message => simp [analyzeFile, hf, ha, analysisFailed, World.start] at hcall
    | ok analysis =>
      cases user with
      | none => simp [analyzeFile, hf, ha, analysisFailed, World.start] at hcall
      | some u =>
        cases h0 : env.faults 0 <;> cases h1 : env.faults 1 <;>
          cases hb : backend.users u.uid <;>
          simp [analyzeFile, hf, ha, analysisFailed, updateUserPoints, run_sdkCall,
            World.start, h0, h1, hb, applyUpdate] at hcall <;>
          rw [hcall]

theorem reachable_analysisMode (s : UploadState) (hreach : s.Reachable) :
    s.analysisMode = "plant" ∨ s.analysisMode = "trash" := by
  induction hreach with
  | initial => left; rfl
  | @step s event _ ih =>
    cases event with
    | fileSelected file =>
      cases file with
      | none => exact ih
      | some f => exact ih
    | fileDropped file =>
      cases file with
      | none => exact ih
      | some f =>
        simp only [UploadState.after, handleDrop]
        split
        · exact ih
        · exact ih
    | plantModeClicked => left; rfl
    | trashModeClicked => right; rfl
    | resetClicked => exact ih
    | analyzeClicked env user rand world =>
      simp only [UploadState.after]
      split
      · next settled hrun =>
        rw [analyzeFile_analysisMode env user rand s world settled hrun]
        exact ih
      · exact ih

theorem fetchProfileData_streak (user : User) (creationTime : Option Int) (s : ProfileState)
    (docs : List (StoredDoc AnalysisRecord) × List (StoredDoc ReportData))
    (rand : Nat → ℚ) (clock : Nat → Int) :
    (fetchProfileData (some user) creationTime s (.ok docs) rand clock).state.userStats.map
        UserStats.streak
      = some (mathFloor (rand 4 * 15) + 1) := by
  obtain ⟨analyses, reports⟩ := docs
  simp [fetchProfileData]

theorem fetchProfileData_streak_keeper (user : User) (creationTime : Option Int)
    (s : ProfileState)
    (docs : List (StoredDoc AnalysisRecord) × List (StoredDoc ReportData))
    (rand : Nat → ℚ) (clock : Nat → Int) :
    (achievementOf (fetchProfileData (some user) creationTime s (.ok docs) rand clock)
        "streak-keeper").map Achievement.unlocked
      = some (match s.userStats with
        | some stats => decide (stats.streak ≥ 7)
        | none => false) := by
  obtain ⟨analyses, reports⟩ := docs
  simp [fetchProfileData, achievementOf]

theorem fetchProfileData_level_up (user : User) (creationTime : Option Int)
    (s : ProfileState)
    (docs : List (StoredDoc AnalysisRecord) × List (StoredDoc ReportData))
    (rand : Nat → ℚ) (clock : Nat → Int) :
    (achievementOf (fetchProfileData (some user) creationTime s (.ok docs) rand clock)
        "level-up").map (fun a => (a.name, a.description, a.unlocked))
      = some ("Level Up", "Reach level 5", false) := by
  obtain ⟨analyses, reports⟩ := docs
  simp [fetchProfileData, achievementOf]

set_option maxRecDepth 20000 in
theorem keywordBucket_quickActions :
    keywordBucket (asciiLower "How do I take care of my plants?") = plant_care ∧
    keywordBucket (asciiLower "What can I recycle and how?") = recycling ∧
    keywordBucket (asciiLower "Give me some sustainability tips") = sustainability ∧
    keywordBucket (asciiLower "What are some eco-friendly practices I can adopt?")
      = sustainability ∧
    containsAny (asciiLower "How do I take care of my plants?") ["hello", "hi", "hey"]
      = false ∧
    containsAny (asciiLower "What can I recycle and how?") ["hello", "hi", "hey"] = false ∧
    containsAny (asciiLower "Give me some sustainability tips") ["hello", "hi", "hey"]
      = false ∧
    containsAny (asciiLower "What are some eco-friendly practices I can adopt?")
      ["hello", "hi", "hey"] = false := by
  decide

theorem startsWithDot_iff (chars : List Char) :
    startsWithDot chars = true ↔
      ∃ next after, chars = '.' :: next :: after ∧ isTrimChar next = false := by
  match chars with
  | [] => simp [startsWithDot]
  | [c] => simp [startsWithDot]
  | dot :: next :: after =>
    simp only [startsWithDot, isNonWhitespace, Bool.and_eq_true, beq_iff_eq,
      Bool.not_eq_true', List.cons.injEq]
    constructor
    · rintro ⟨rfl, hnext⟩
      exact ⟨next, after, ⟨rfl, rfl, rfl⟩, hnext⟩
    · rintro ⟨n, a, ⟨rfl, rfl, rfl⟩, hnext⟩
      exact ⟨rfl, hnext⟩

theorem matchAfterAt_iff (chars : List Char) :
    matchAfterAt chars = true ↔
      ∃ domain next after, chars = domain ++ '.' :: next :: after ∧ domain ≠ [] ∧
        (∀ c ∈ domain, isTrimChar c = false) ∧ isTrimChar next = false := by
  induction chars with
  | nil => simp [matchAfterAt]
  | cons c rest ih =>
    simp only [matchAfterAt, isNonWhitespace, Bool.and_eq_true, Bool.not_eq_true',
      Bool.or_eq_true, startsWithDot_iff, ih]
    constructor
    · rintro ⟨hc, ⟨next, after, rfl, hnext⟩ | ⟨domain, next, after, rfl, _, hdomain, hnext⟩⟩
      · exact ⟨[c], next, after, rfl, by simp, by simpa using hc, hnext⟩
      · refine ⟨c :: domain, next, after, rfl, by simp, ?_, hnext⟩
        intro x hx
        rcases List.mem_cons.mp hx with rfl | hx
        · exact hc
        · exact hdomain x hx
    · rintro ⟨domain, next, after, heq, hne, hdomain, hnext⟩
      match domain, hne with
      | [d], _ =>
        simp only [List.singleton_append, List.cons.injEq] at heq
        obtain ⟨rfl, rfl⟩ := heq
        exact ⟨hdomain c (by simp), Or.inl ⟨next, after, rfl, hnext⟩⟩
      | d :: e :: more, _ =>
        simp only [List.cons_append, List.cons.injEq] at heq
        obtain ⟨rfl, rfl⟩ := heq
        refine ⟨hdomain c (by simp), Or.inr ⟨e :: more, next, after, by simp, by simp, ?_,
          hnext⟩⟩
        intro x hx
        exact hdomain x (List.mem_cons_of_mem _ hx)

theorem startsWithAt_iff (chars : List Char) :
    startsWithAt chars = true ↔ ∃ rest, chars = '@' :: rest ∧ matchAfterAt rest = true := by
  match chars with
  | [] => simp [startsWithAt]
  | sign :: rest =>
    simp only [startsWithAt, Bool.and_eq_true, beq_iff_eq, List.cons.injEq]
    constructor
    · rintro ⟨rfl, h⟩
      exact ⟨rest, ⟨rfl, rfl⟩, h⟩
    · rintro ⟨r, ⟨rfl, rfl⟩, h⟩
      exact ⟨rfl, h⟩

theorem emailPatternTest_iff (chars : List Char) :
    emailPatternTest chars = true ↔
      ∃ before c rest, chars = before ++ c :: '@' :: rest ∧ isTrimChar c = false ∧
        matchAfterAt rest = true := by
  induction chars with
  | nil => simp [emailPatternTest]
  | cons a tail ih =>
    simp only [emailPatternTest, isNonWhitespace, Bool.or_eq_true, Bool.and_eq_true,
      Bool.not_eq_true', startsWithAt_iff, ih]
    constructor
    · rintro (⟨ha, rest, rfl, hrest⟩ | ⟨before, c, rest, rfl, hc, hrest⟩)
      · exact ⟨[], a, rest, rfl, ha, hrest⟩
      · exact ⟨a :: before, c, rest, rfl, hc, hrest⟩
    · rintro ⟨before, c, rest, heq, hc, hrest⟩
      match before with
      | [] =>
        simp only [List.nil_append, List.cons.injEq] at heq
        obtain ⟨rfl, rfl⟩ := heq
        exact Or.inl ⟨hc, rest, rfl, hrest⟩
      | b :: more =>
        simp only [List.cons_append, List.cons.injEq] at heq
        obtain ⟨rfl, rfl⟩ := heq
        exact Or.inr ⟨more, c, rest, rfl, hc, hrest⟩

theorem emailPatternTest_iff_shape (text : String) :
    emailPatternTest text.data = true ↔ ContainsEmailShape text := by
  rw [emailPatternTest_iff]
  constructor
  · rintro ⟨before, c, rest, heq, hc, hrest⟩
    obtain ⟨domain, next, after, rfl, hne, hdomain, hnext⟩ := (matchAfterAt_iff rest).mp hrest
    refine ⟨before, [c], domain, [next], after, ?_, by simp, hne, by simp, ?_, hdomain, ?_⟩
    · rw [heq]; simp
    · simpa using hc
    · simpa using hnext
  · rintro ⟨before, name, domain, suffix, after, heq, hname, hdomain, hsuffix, hn, hd, hs⟩
    obtain ⟨front, c, rfl⟩ : ∃ front c, name = front ++ [c] :=
      ⟨name.dropLast, name.getLast hname, (List.dropLast_append_getLast hname).symm⟩
    obtain ⟨next, more, rfl⟩ := List.exists_cons_of_ne_nil hsuffix
    refine ⟨before ++ front, c, domain ++ '.' :: next :: (more ++ after), ?_, ?_, ?_⟩
    · rw [heq]; simp
    · exact hn c (by simp)
    · exact (matchAfterAt_iff _).mpr
        ⟨domain, next, more ++ after, rfl, hdomain, hd, hs next (by simp)⟩

/-! ## Theorems, one per claim -/

/-- C1: for every message and every draw in [0,1), `getChatbotResponse` returns a string
that belongs to the bucket selected by the ordered keyword tests on the lower-cased
message (greetings, then plant care, then recycling, then sustainability, else default). -/
theorem C1_getChatbotResponse_in_keyword_bucket (toLowerCase : String → String)
    (message : String) (rand : Nat → ℚ) (h0 : 0 ≤ rand 1) (h1 : rand 1 < 1) :
    ∃ s, (getChatbotResponse toLowerCase message rand).value = some s ∧
      s ∈ keywordBucket (toLowerCase message) := by
  rw [getChatbotResponse_value]
  exact getRandomResponse_mem _ _ h0 h1 (keywordBucket_ne_nil _)

/-- Witness for C1 at the message "Hello there" with every draw equal to 1/2. -/
theorem C1_getChatbotResponse_in_keyword_bucket_witness :
    ∃ s, (getChatbotResponse asciiLower "Hello there" (fun _ => 1 / 2)).value = some s ∧
      s ∈ keywordBucket (asciiLower "Hello there") :=
  C1_getChatbotResponse_in_keyword_bucket asciiLower "Hello there" (fun _ => 1 / 2)
    (by norm_num) (by norm_num)

/-- C2: when the trimmed message text is empty, `sendMessage` leaves the whole chat
state (message list, input text, loading flag included) as it was and makes no call to
`getChatbotResponse`. -/
theorem C2_sendMessage_blank_is_noop (toLowerCase : String → String) (s : ChatState)
    (messageText : Option String) (clock : Nat → Int) (rand : Nat → ℚ)
    (hblank : trim (messageText.getD s.inputMessage) = "") :
    (sendMessage toLowerCase s messageText clock rand).state = s ∧
      (sendMessage toLowerCase s messageText clock rand).state.messages = s.messages ∧
      (sendMessage toLowerCase s messageText clock rand).state.inputMessage
        = s.inputMessage ∧
      (sendMessage toLowerCase s messageText clock rand).state.loading = s.loading ∧
      (sendMessage toLowerCase s messageText clock rand).chatbotCalls = [] := by
  simp [sendMessage, sendMessageStart, hblank]

/-- Witness for C2: a whitespace-only text submitted on the initial state. -/
theorem C2_sendMessage_blank_is_noop_witness :
    trim ((some " \t\n " : Option String).getD (ChatState.initial 0).inputMessage) = "" ∧
      (sendMessage asciiLower (ChatState.initial 0) (some " \t\n ") (fun _ => 0)
        (fun _ => 0)).state = ChatState.initial 0 ∧
      (sendMessage asciiLower (ChatState.initial 0) (some " \t\n ") (fun _ => 0)
        (fun _ => 0)).chatbotCalls = [] :=
  have h := C2_sendMessage_blank_is_noop asciiLower (ChatState.initial 0) (some " \t\n ")
    (fun _ => 0) (fun _ => 0) (by decide)
  ⟨by decide, h.1, h.2.2.2.2⟩

/-- C3: selecting any of the four quick actions submits its canned question: the message
list becomes the old list followed by a user entry carrying exactly that question and
one bot entry, and the chatbot is asked that question once. -/
theorem C3_quick_action_submits_question (toLowerCase : String → String) (s : ChatState)
    (action : QuickAction) (haction : action ∈ quickActions) (clock : Nat → Int)
    (rand : Nat → ℚ) :
    ∃ userEntry botEntry : Message,
      (handleQuickAction toLowerCase s action.message clock rand).state.messages
        = s.messages ++ [userEntry, botEntry] ∧
      userEntry.type = "user" ∧ userEntry.content = some action.message ∧
      botEntry.type = "bot" ∧
      botEntry.content = (getChatbotResponse toLowerCase action.message rand).value ∧
      (handleQuickAction toLowerCase s action.message clock rand).chatbotCalls
        = [action.message] := by
  obtain ⟨htrim, hne⟩ := trim_quickAction_message action haction
  have hstart : sendMessageStart s action.message clock =
      some { s with
        messages := s.messages ++
          [{ id := clock 0, type := "user", content := some action.message,
             timestamp := clock 1 }]
        inputMessage := ""
        loading := true } := by
    simp [sendMessageStart, htrim, hne]
  refine ⟨Message.mk (clock 0) "user" (some action.message) (clock 1),
    Message.mk (clock 2 + 1) "bot"
      (getChatbotResponse toLowerCase action.message rand).value (clock 3),
    ?_, rfl, rfl, rfl, rfl, ?_⟩ <;>
    simp [handleQuickAction, sendMessage, hstart, sendMessageSettle]

/-- Witness for C3: the recycling quick action selected on the initial state. -/
theorem C3_quick_action_submits_question_witness :
    QuickAction.mk "Recycle" "Recycling help" "What can I recycle and how?" ∈ quickActions ∧
    ∃ userEntry botEntry : Message,
      (handleQuickAction asciiLower (ChatState.initial 0) "What can I recycle and how?"
        (fun _ => 0) (fun _ => 0)).state.messages
        = (ChatState.initial 0).messages ++ [userEntry, botEntry] ∧
      userEntry.type = "user" ∧
      userEntry.content = some "What can I recycle and how?" ∧
      botEntry.type = "bot" ∧
      botEntry.content = (getChatbotResponse asciiLower "What can I recycle and how?"
        (fun _ => 0)).value ∧
      (handleQuickAction asciiLower (ChatState.initial 0) "What can I recycle and how?"
        (fun _ => 0) (fun _ => 0)).chatbotCalls = ["What can I recycle and how?"] :=
  ⟨by decide, C3_quick_action_submits_question asciiLower (ChatState.initial 0)
    (QuickAction.mk "Recycle" "Recycling help" "What can I recycle and how?")
    (by decide) (fun _ => 0) (fun _ => 0)⟩

/-- C4: the minimize control flips `isMinimized` and nothing else; the message list is
on screen exactly when the chat window is on screen and not minimised (for a signed-in
user: exactly when `isOpen` holds and `isMinimized` does not), and then shows the whole
list; activating the control twice gives back the original state and view. -/
theorem C4_minimize_toggle (user : Option User) (s : ChatState) :
    ((onMinimizeClick s).isMinimized = !s.isMinimized ∧
      (onMinimizeClick s).messages = s.messages ∧
      (onMinimizeClick s).inputMessage = s.inputMessage ∧
      (onMinimizeClick s).loading = s.loading ∧
      (onMinimizeClick s).isOpen = s.isOpen) ∧
    ((shownMessageList (render user s)).isSome = true ↔
      ((shownWindow (render user s)).isSome = true ∧ s.isMinimized = false)) ∧
    ((shownWindow (render user s)).isSome = true ↔
      (user.isSome = true ∧ s.isOpen = true)) ∧
    (∀ u : User, (shownMessageList (render (some u) s)).isSome = true ↔
      (s.isOpen = true ∧ s.isMinimized = false)) ∧
    shownMessageList (render user s) =
      (if user.isSome && s.isOpen && !s.isMinimized then some s.messages else none) ∧
    shownMessageList (render user (onMinimizeClick (onMinimizeClick s))) =
      shownMessageList (render user s) ∧
    onMinimizeClick (onMinimizeClick s) = s := by
  obtain ⟨isOpen, isMinimized, messages, inputMessage, loading⟩ := s
  cases user <;> cases isOpen <;> cases isMinimized <;>
    simp [onMinimizeClick, render, shownMessageList, shownWindow]

/-- C5: for a filter value other than 'all' the displayed reports are exactly the
reports whose category equals the filter value, in their original order, and the markers
are drawn from them one for one; for 'all' the displayed list is the whole list. -/
theorem C5_filteredReports (reports : List Report) (filterCategory : String)
    (hfilter : filterCategory ≠ "all") :
    filteredReports reports filterCategory =
        reports.filter (fun report => decide (report.category = some filterCategory)) ∧
      (filteredReports reports filterCategory).Sublist reports ∧
      (∀ report, report ∈ filteredReports reports filterCategory ↔
        report ∈ reports ∧ report.category = some filterCategory) ∧
      (markers reports filterCategory).map Marker.key =
        (reports.filter
          (fun report => decide (report.category = some filterCategory))).map Report.id ∧
      filteredReports reports "all" = reports := by
  have hfilt : filteredReports reports filterCategory =
      reports.filter (fun report => decide (report.category = some filterCategory)) := by
    simp only [filteredReports, hfilter, if_false]
    apply List.filter_congr
    intro report _
    by_cases h : report.category = some filterCategory <;> simp [h]
  refine ⟨hfilt, ?_, ?_, ?_, ?_⟩
  · rw [hfilt]
    exact List.filter_sublist _
  · intro report
    rw [hfilt]
    simp [List.mem_filter]
  · simp only [markers, hfilt, List.map_map]
    rfl
  · simp [filteredReports]

/-- Witness for C5: three reports filtered by 'pollution'. -/
theorem C5_filteredReports_witness :
    filteredReports
        [Report.mk "mock1" 40 (-73) (some "trash") "waste" "EcoWarrior123",
         Report.mk "mock2" 40 (-73) (some "pollution") "air" "GreenGuardian",
         Report.mk "doc9" 41 (-72) none "untyped" "Anonymous"] "pollution" =
      [Report.mk "mock2" 40 (-73) (some "pollution") "air" "GreenGuardian"] := by
  have h := (C5_filteredReports
    [Report.mk "mock1" 40 (-73) (some "trash") "waste" "EcoWarrior123",
     Report.mk "mock2" 40 (-73) (some "pollution") "air" "GreenGuardian",
     Report.mk "doc9" 41 (-72) none "untyped" "Anonymous"] "pollution" (by decide)).1
  rw [h]
  decide

/-- C6: for each of the metrics points, analyses and reports the leaderboard is a
permutation of the ten fixed entries, non-increasing in that metric, and its order of
entry ids is one fixed list, the same for every user and every time filter. -/
theorem C6_leaderboard_sorted_by_metric (user : Option User) (timeFilter : String) :
    (mockLeaderboard user).length = 10 ∧
    ((fetchLeaderboardData user timeFilter "points").leaderboard.Perm
        (mockLeaderboard user) ∧
      (fetchLeaderboardData user timeFilter "points").leaderboard.Pairwise
        (fun a b => a.points ≥ b.points) ∧
      (fetchLeaderboardData user timeFilter "points").leaderboard.map LeaderboardEntry.id
        = ["1", "2", "3", "4", "5", "6", "7", "8", "9", "10"] ∧
      ∀ (other : Option User) (otherFilter : String),
        (fetchLeaderboardData other otherFilter "points").leaderboard.map
            LeaderboardEntry.id =
          (fetchLeaderboardData user timeFilter "points").leaderboard.map
            LeaderboardEntry.id) ∧
    ((fetchLeaderboardData user timeFilter "analyses").leaderboard.Perm
        (mockLeaderboard user) ∧
      (fetchLeaderboardData user timeFilter "analyses").leaderboard.Pairwise
        (fun a b => a.analyses ≥ b.analyses) ∧
      (fetchLeaderboardData user timeFilter "analyses").leaderboard.map LeaderboardEntry.id
        = ["1", "2", "4", "3", "5", "6", "7", "8", "9", "10"] ∧
      ∀ (other : Option User) (otherFilter : String),
        (fetchLeaderboardData other otherFilter "analyses").leaderboard.map
            LeaderboardEntry.id =
          (fetchLeaderboardData user timeFilter "analyses").leaderboard.map
            LeaderboardEntry.id) ∧
    ((fetchLeaderboardData user timeFilter "reports").leaderboard.Perm
        (mockLeaderboard user) ∧
      (fetchLeaderboardData user timeFilter "reports").leaderboard.Pairwise
        (fun a b => a.reports ≥ b.reports) ∧
      (fetchLeaderboardData user timeFilter "reports").leaderboard.map LeaderboardEntry.id
        = ["5", "1", "2", "3", "7", "4", "9", "6", "8", "10"] ∧
      ∀ (other : Option User) (otherFilter : String),
        (fetchLeaderboardData other otherFilter "reports").leaderboard.map
            LeaderboardEntry.id =
          (fetchLeaderboardData user timeFilter "reports").leaderboard.map
            LeaderboardEntry.id) := by
  refine ⟨rfl, ⟨leaderboard_perm _ _ _, ?_, ?_, ?_⟩, ⟨leaderboard_perm _ _ _, ?_, ?_, ?_⟩,
    ⟨leaderboard_perm _ _ _, ?_, ?_, ?_⟩⟩ <;>
  first
    | (intro other otherFilter
       simp [fetchLeaderboardData, arraySort, compareEntries, mockLeaderboard])
    | simp [fetchLeaderboardData, arraySort, compareEntries, mockLeaderboard]

/-- C7: in plant mode `analyzeImage` returns the canned healthy record when the draw
exceeds 0.4 and the canned diseased record otherwise, whatever the image.  The test is the
one the code makes, on doubles: `0.4` is the double that the literal denotes,
3602879701896397 / 2^53, and a draw equal to it gives the diseased record. -/
theorem C7_analyzeImage_plant (imageBase64 : String) (rand : Nat → ℚ) :
    (analyzeImage imageBase64 "plant" rand).value =
        .ok (.plant (if rand 1 > roundToDouble 0.4 then mockPlantAnalysis.healthy
          else mockPlantAnalysis.diseased)) ∧
      roundToDouble 0.4 = 3602879701896397 / 9007199254740992 ∧
      mockPlantAnalysis.healthy ≠ mockPlantAnalysis.diseased ∧
      ∀ other : String, (analyzeImage other "plant" rand).value =
        (analyzeImage imageBase64 "plant" rand).value := by
  refine ⟨?_, roundToDouble_literal.1, by decide, fun _ => rfl⟩
  by_cases h : rand 1 > roundToDouble 0.4 <;> simp [analyzeImage, analyzeImageBody, h]

/-- Witness for C7 at the draw 3602879701896397 / 2^53, the double of the literal `0.4`:
the draw does not exceed the literal and the diseased record is returned. -/
theorem C7_analyzeImage_plant_witness :
    isDouble (3602879701896397 / 9007199254740992) = true ∧
      (analyzeImage "data:image/png;base64,AAAA" "plant"
          (fun _ => 3602879701896397 / 9007199254740992)).value =
        .ok (.plant mockPlantAnalysis.diseased) := by
  obtain ⟨hvalue, hliteral, _, _⟩ :=
    C7_analyzeImage_plant "data:image/png;base64,AAAA"
      (fun _ => 3602879701896397 / 9007199254740992)
  refine ⟨roundToDouble_literal.2, ?_⟩
  rw [hvalue, hliteral]
  simp

/-- C8: in trash mode with a draw r in [0,1), a double, `analyzeImage` returns the canned
trash record whose items are the first k canned items, k = `Math.floor(r * 3) + 1` with
the product rounded to a double as the code computes it: between one and three items, a
prefix of the canned list starting with the plastic bottle, same overall tip. -/
theorem C8_analyzeImage_trash (imageBase64 : String) (rand : Nat → ℚ)
    (hdouble : isDouble (rand 1) = true) (h0 : 0 ≤ rand 1) (h1 : rand 1 < 1) :
    ∃ record : TrashAnalysis,
      (analyzeImage imageBase64 "trash" rand).value = .ok (.trash record) ∧
      record.items =
        mockTrashAnalysis.items.take (mathFloor (doubleMul (rand 1) 3) + 1).toNat ∧
      (record.items.length : Int) = mathFloor (doubleMul (rand 1) 3) + 1 ∧
      1 ≤ record.items.length ∧ record.items.length ≤ 3 ∧
      record.items <+: mockTrashAnalysis.items ∧
      record.items.head?.map TrashItem.name = some "Plastic Water Bottle" ∧
      record.overallTip = mockTrashAnalysis.overallTip := by
  obtain ⟨hlo, hhi⟩ := mathFloor_doubleMul_three_bounds (rand 1) hdouble h0 h1
  have hk0 : 0 ≤ mathFloor (doubleMul (rand 1) 3) + 1 := by omega
  refine ⟨{ mockTrashAnalysis with
      items := mockTrashAnalysis.items.take (mathFloor (doubleMul (rand 1) 3) + 1).toNat },
    ?_, rfl, ?_, ?_, ?_, List.take_prefix _ _, ?_, rfl⟩
  · have hmode : ("trash" : String) ≠ "plant" := by decide
    simp only [analyzeImage, analyzeImageBody, hmode, if_false, if_true]
    rw [arraySlice_zero_eq_take _ _ hk0]
  all_goals
    generalize hk : mathFloor (doubleMul (rand 1) 3) = k at *
    have hcases : k = 0 ∨ k = 1 ∨ k = 2 := by omega
    rcases hcases with rfl | rfl | rfl <;> simp [mockTrashAnalysis]

/-- Witness for C8 at the draw 6004799503160661 / 2^53, the double nearest to 2/3: the
product with 3 rounds to 2 and all three items are returned. -/
theorem C8_analyzeImage_trash_witness :
    isDouble ((fun _ : Nat => (6004799503160661 / 9007199254740992 : ℚ)) 1) = true ∧
      mathFloor (doubleMul ((fun _ : Nat => (6004799503160661 / 9007199254740992 : ℚ)) 1) 3)
        + 1 = 3 ∧
      ∃ record : TrashAnalysis,
        (analyzeImage "data:image/png;base64,AAAA" "trash"
            (fun _ => 6004799503160661 / 9007199254740992)).value = .ok (.trash record) ∧
        record.items = mockTrashAnalysis.items.take
          (mathFloor (doubleMul
            ((fun _ : Nat => (6004799503160661 / 9007199254740992 : ℚ)) 1) 3) + 1).toNat ∧
        (record.items.length : Int) = mathFloor (doubleMul
            ((fun _ : Nat => (6004799503160661 / 9007199254740992 : ℚ)) 1) 3) + 1 ∧
        1 ≤ record.items.length ∧ record.items.length ≤ 3 ∧
        record.items <+: mockTrashAnalysis.items ∧
        record.items.head?.map TrashItem.name = some "Plastic Water Bottle" ∧
        record.overallTip = mockTrashAnalysis.overallTip :=
  ⟨doubleMul_near_two_thirds.1,
    by simp only [doubleMul_near_two_thirds.2.2]; norm_num [mathFloor],
    C8_analyzeImage_trash "data:image/png;base64,AAAA"
      (fun _ => 6004799503160661 / 9007199254740992)
      doubleMul_near_two_thirds.1 (by norm_num) (by norm_num)⟩

/-- C9: when every draw lies in [0,1), the numbers returned by `getEnvironmentalData`
are integers inside the commented ranges: temperature 15..35, humidity 40..80, wind
speed 5..20, AQI 50..150, UV index 1..11, PM2.5 10..40 and PM10 20..70. -/
theorem C9_getEnvironmentalData_ranges (latitude longitude : Option ℚ) (rand : Nat → ℚ)
    (hrand : ∀ k, 0 ≤ rand k ∧ rand k < 1) :
    ∃ data : EnvironmentalData,
      (getEnvironmentalData latitude longitude rand).value = data ∧
      (15 ≤ data.weather.temperature ∧ data.weather.temperature ≤ 35) ∧
      (40 ≤ data.weather.humidity ∧ data.weather.humidity ≤ 80) ∧
      (5 ≤ data.weather.windSpeed ∧ data.weather.windSpeed ≤ 20) ∧
      (50 ≤ data.airQuality.aqi ∧ data.airQuality.aqi ≤ 150) ∧
      (1 ≤ data.uvIndex.index ∧ data.uvIndex.index ≤ 11) ∧
      (10 ≤ data.airQuality.pm25 ∧ data.airQuality.pm25 ≤ 40) ∧
      (20 ≤ data.airQuality.pm10 ∧ data.airQuality.pm10 ≤ 70) := by
  have t := mathRound_affine_bounds 15 20 (rand 0) (hrand 0).1 (hrand 0).2 (by norm_num)
  have h := mathRound_affine_bounds 40 40 (rand 1) (hrand 1).1 (hrand 1).2 (by norm_num)
  have w := mathRound_scaled_bounds 15 (rand 3) (hrand 3).1 (hrand 3).2 (by norm_num)
  have a := mathRound_affine_bounds 50 100 (rand 4) (hrand 4).1 (hrand 4).2 (by norm_num)
  have p := mathRound_affine_bounds 10 30 (rand 6) (hrand 6).1 (hrand 6).2 (by norm_num)
  have q := mathRound_affine_bounds 20 50 (rand 7) (hrand 7).1 (hrand 7).2 (by norm_num)
  have u := mathRound_scaled_bounds 10 (rand 8) (hrand 8).1 (hrand 8).2 (by norm_num)
  push_cast at t h w a p q u
  refine ⟨_, rfl, ?_⟩
  simp only [getEnvironmentalData]
  refine ⟨⟨?_, ?_⟩, ⟨?_, ?_⟩, ⟨?_, ?_⟩, ⟨?_, ?_⟩, ⟨?_, ?_⟩, ⟨?_, ?_⟩, ⟨?_, ?_⟩⟩ <;> omega

/-- Witness for C9 with every draw equal to 1/2 and the default location. -/
theorem C9_getEnvironmentalData_ranges_witness :
    ∃ data : EnvironmentalData,
      (getEnvironmentalData none none (fun _ => 1 / 2)).value = data ∧
      (15 ≤ data.weather.temperature ∧ data.weather.temperature ≤ 35) ∧
      (40 ≤ data.weather.humidity ∧ data.weather.humidity ≤ 80) ∧
      (5 ≤ data.weather.windSpeed ∧ data.weather.windSpeed ≤ 20) ∧
      (50 ≤ data.airQuality.aqi ∧ data.airQuality.aqi ≤ 150) ∧
      (1 ≤ data.uvIndex.index ∧ data.uvIndex.index ≤ 11) ∧
      (10 ≤ data.airQuality.pm25 ∧ data.airQuality.pm25 ≤ 40) ∧
      (20 ≤ data.airQuality.pm10 ∧ data.airQuality.pm10 ≤ 70) :=
  C9_getEnvironmentalData_ranges none none (fun _ => 1 / 2) (fun _ => by norm_num)

/-- C10: `getEnvironmentalData` ignores its location arguments: with the same draws,
any two locations (given or omitted) yield equal records. -/
theorem C10_getEnvironmentalData_ignores_location
    (latitude longitude latitude' longitude' : Option ℚ) (rand : Nat → ℚ) :
    getEnvironmentalData latitude longitude rand =
      getEnvironmentalData latitude' longitude' rand := rfl


/-- C11 (counterexample): a `signUp` in which no call fails issues four backend SDK
calls, not one. -/
theorem C11_signUp_issues_four_calls :
    (((signUp quietEnv "ann@example.org" "secret" "Ann").run
        (World.start emptyBackend)).2.calls.map SdkCall.functionName
      = ["createUserWithEmailAndPassword", "updateProfile", "getDoc", "setDoc"]) ∧
    ((signUp quietEnv "ann@example.org" "secret" "Ann").run
        (World.start emptyBackend)).2.calls.length ≠ 1 := by
  constructor <;>
    simp [signUp, createUserProfile, run_sdkCall, World.start, quietEnv, emptyBackend,
      applySet, SdkCall.functionName]

/-- C11 (amended): `signIn` and `logout` issue exactly one backend SDK call.  `signUp`
issues createUserWithEmailAndPassword, updateProfile, getDoc and one profile write
(setDoc for a new profile, updateDoc for an existing one) in this order, stopping after
the first of the first three that fails; `signInWithGoogle` does the same with
signInWithPopup, getDoc and one profile write. -/
theorem C11_sdk_calls_per_operation (env : SdkEnv) (backend : Backend)
    (email password name : String) :
    ((signIn env email password).run (World.start backend)).2.calls
      = [SdkCall.signInWithEmailAndPassword email password] ∧
    ((logout env).run (World.start backend)).2.calls = [SdkCall.signOut] ∧
    ((signUp env email password name).run (World.start backend)).2.calls.map
        SdkCall.functionName
      = (["createUserWithEmailAndPassword", "updateProfile", "getDoc",
          if (backend.users env.credentialUser.uid).isNone then "setDoc" else "updateDoc"]).take
          (if (env.faults 0).isSome then 1 else if (env.faults 1).isSome then 2
            else if (env.faults 2).isSome then 3 else 4) ∧
    ((signInWithGoogle env).run (World.start backend)).2.calls.map SdkCall.functionName
      = (["signInWithPopup", "getDoc",
          if (backend.users env.credentialUser.uid).isNone then "setDoc" else "updateDoc"]).take
          (if (env.faults 0).isSome then 1 else if (env.faults 1).isSome then 2 else 3) := by
  refine ⟨?_, ?_, ?_, ?_⟩
  · cases h : env.faults 0 <;> simp [signIn, run_sdkCall, World.start, h]
  · cases h : env.faults 0 <;> simp [logout, run_sdkCall, World.start, h]
  · cases h0 : env.faults 0 <;> cases h1 : env.faults 1 <;> cases h2 : env.faults 2 <;>
      cases h3 : env.faults 3 <;> cases hb : backend.users env.credentialUser.uid <;>
      simp [signUp, createUserProfile, run_sdkCall, World.start, h0, h1, h2, h3, hb,
        applySet, applyUpdate, SdkCall.functionName]
  · cases h0 : env.faults 0 <;> cases h1 : env.faults 1 <;> cases h2 : env.faults 2 <;>
      cases hb : backend.users env.credentialUser.uid <;>
      simp [signInWithGoogle, createUserProfile, run_sdkCall, World.start, h0, h1, h2, hb,
        applySet, applyUpdate, SdkCall.functionName]

/-- C12 (counterexample): in a `signInWithGoogle` whose third call, the profile write
`setDoc`, fails, that call was made and failed, yet the operation returns normally and
shows its success notification and no error notification. -/
theorem C12_google_write_failure_reported_as_success :
    ((faultAt 2).faults 2 = some { name := "FirebaseError", message := "unavailable" }) ∧
    (((signInWithGoogle (faultAt 2)).run (World.start emptyBackend)).2.calls.map
        SdkCall.functionName = ["signInWithPopup", "getDoc", "setDoc"]) ∧
    (((signInWithGoogle (faultAt 2)).run (World.start emptyBackend)).1
      = .ok { user := sampleUser }) ∧
    (((signInWithGoogle (faultAt 2)).run (World.start emptyBackend)).2.toasts
      = [Toast.success "Successfully signed in with Google! 🌍"]) := by
  refine ⟨by simp [faultAt], ?_, ?_, ?_⟩ <;>
    simp [signInWithGoogle, createUserProfile, run_sdkCall, World.start, faultAt,
      emptyBackend, applySet, SdkCall.functionName]

/-- C12 (amended): when the authentication call, `updateProfile` or the profile read
`getDoc` fails with an error e (the first failing call among the first three calls of
`signUp`, the first two of `signInWithGoogle`, the one call of `signIn` and `logout`),
the operation shows exactly one error notification, no success notification, and
rejects with that same e; otherwise it shows its success notification and returns
normally, also when the profile write inside `createUserProfile` fails. -/
theorem C12_failures_surface_and_rethrow (env : SdkEnv) (backend : Backend)
    (email password name : String) :
    ((signUp env email password name).run (World.start backend)).1
      = settledWith (firstFault env.faults 3)
          { user := { env.credentialUser with displayName := orNull (some name) } } ∧
    ((signUp env email password name).run (World.start backend)).2.toasts
      = notifiedWith (firstFault env.faults 3) "Welcome to EcoAI Pro! 🌍"
          JsError.message ∧
    ((signIn env email password).run (World.start backend)).1
      = settledWith (firstFault env.faults 1) { user := env.credentialUser } ∧
    ((signIn env email password).run (World.start backend)).2.toasts
      = notifiedWith (firstFault env.faults 1) "Welcome back, Eco Warrior! 🌱"
          (fun _ => "Invalid credentials") ∧
    ((signInWithGoogle env).run (World.start backend)).1
      = settledWith (firstFault env.faults 2) { user := env.credentialUser } ∧
    ((signInWithGoogle env).run (World.start backend)).2.toasts
      = notifiedWith (firstFault env.faults 2) "Successfully signed in with Google! 🌍"
          (fun _ => "Google sign in failed") ∧
    ((logout env).run (World.start backend)).1 = settledWith (firstFault env.faults 1) () ∧
    ((logout env).run (World.start backend)).2.toasts
      = notifiedWith (firstFault env.faults 1) "See you later, Eco Warrior! 👋"
          (fun _ => "Sign out failed") :=
  ⟨(signUp_settles env backend email password name).1,
    (signUp_settles env backend email password name).2,
    (signIn_settles env backend email password).1,
    (signIn_settles env backend email password).2,
    (signInWithGoogle_settles env backend).1, (signInWithGoogle_settles env backend).2,
    (logout_settles env backend).1, (logout_settles env backend).2⟩

/-- C13: `updateUserPoints` never rejects; it issues no SDK call without a signed-in
user and otherwise exactly one `updateDoc` (so at most one attempt, no retry); its
success notification appears only when that one attempt succeeded, and a failed attempt
leaves the store as it was. -/
theorem C13_updateUserPoints_best_effort (env : SdkEnv) (user : Option User)
    (pointsToAdd : Option Int) (backend : Backend) :
    ((updateUserPoints env user pointsToAdd).run (World.start backend)).1 = .ok () ∧
    ((updateUserPoints env user pointsToAdd).run (World.start backend)).2.calls
      = (match user with
        | none => []
        | some u => [SdkCall.updateDoc u.uid (.incrementPoints (pointsToAdd.getD 5))]) ∧
    ((updateUserPoints env user pointsToAdd).run (World.start backend)).2.calls.length ≤ 1 ∧
    ((updateUserPoints env user pointsToAdd).run (World.start backend)).2.toasts
      = (match user with
        | none => []
        | some u =>
          if (env.faults 0).isNone && (backend.users u.uid).isSome then
            [Toast.success ("+" ++ toString (pointsToAdd.getD 5) ++ " eco points earned! 🌱")]
          else []) ∧
    (((updateUserPoints env user pointsToAdd).run (World.start backend)).2.toasts = [] ∨
      ∃ u profile, user = some u ∧ backend.users u.uid = some profile ∧
        ((updateUserPoints env user pointsToAdd).run (World.start backend)).2.backend.users
            u.uid
          = some { profile with points := profile.points + pointsToAdd.getD 5 }) := by
  cases user with
  | none => simp [updateUserPoints, World.start]
  | some u =>
    cases h0 : env.faults 0 <;> cases hb : backend.users u.uid <;>
      simp [updateUserPoints, run_sdkCall, World.start, h0, hb, applyUpdate]

/-- C14: for a signed-in user whose profile exists, an `updateUserPoints(delta)` whose
update goes through leaves that profile with points increased by exactly delta and every
other field as before, and leaves every other user's profile and the other collections
unchanged. -/
theorem C14_updateUserPoints_adds_delta (env : SdkEnv) (user : User) (delta : Int)
    (backend : Backend) (profile : Profile)
    (hprofile : backend.users user.uid = some profile) (hsuccess : env.faults 0 = none) :
    ((updateUserPoints env (some user) (some delta)).run (World.start backend)).2.backend.users
        user.uid
      = some { profile with points := profile.points + delta } ∧
    (∀ other : String, other ≠ user.uid →
      ((updateUserPoints env (some user) (some delta)).run
          (World.start backend)).2.backend.users other
        = backend.users other) ∧
    ((updateUserPoints env (some user) (some delta)).run
        (World.start backend)).2.backend.ecoReports = backend.ecoReports ∧
    ((updateUserPoints env (some user) (some delta)).run
        (World.start backend)).2.backend.analyses = backend.analyses := by
  refine ⟨?_, ?_, ?_, ?_⟩
  · simp [updateUserPoints, run_sdkCall, World.start, hsuccess, hprofile, applyUpdate]
  · intro other hother
    simp [updateUserPoints, run_sdkCall, World.start, hsuccess, hprofile, applyUpdate,
      hother]
  · simp [updateUserPoints, run_sdkCall, World.start, hsuccess, hprofile, applyUpdate]
  · simp [updateUserPoints, run_sdkCall, World.start, hsuccess, hprofile, applyUpdate]

/-- Witness for C14: ten points added to the sample profile, which held forty. -/
theorem C14_updateUserPoints_adds_delta_witness :
    ((updateUserPoints quietEnv (some sampleUser) (some 10)).run
        (World.start sampleBackend)).2.backend.users sampleUser.uid
      = some { sampleProfile with points := 50 } :=
  (C14_updateUserPoints_adds_delta quietEnv sampleUser 10 sampleBackend sampleProfile
    (by simp [sampleBackend, sampleUser]) rfl).1

/-- C15: for a user without a profile document whose `getDoc` goes through,
`createUserProfile` issues one `setDoc` whose document has points 0, level 1, badges
['newcomer'], totalUploads 0, totalReports 0, streak 0, lastLogin equal to createdAt, and
as displayName the user's displayName if non-empty, else the supplied name if non-empty,
else 'Eco Warrior'; that document is the stored profile when the write goes through. -/
theorem C15_createUserProfile_new_profile (env : SdkEnv) (user : User)
    (additionalData : AdditionalData) (backend : Backend)
    (hnew : backend.users user.uid = none) (hread : env.faults 0 = none) :
    ∃ data : Profile,
      ((createUserProfile env (some user) additionalData).run (World.start backend)).2.calls
        = [SdkCall.getDoc user.uid, SdkCall.setDoc user.uid data] ∧
      ((createUserProfile env (some user) additionalData).run
          (World.start backend)).2.backend.users user.uid
        = (if (env.faults 1).isNone then some data else none) ∧
      data.points = 0 ∧ data.level = 1 ∧ data.badges = ["newcomer"] ∧
      data.totalUploads = 0 ∧ data.totalReports = 0 ∧ data.streak = 0 ∧
      data.lastLogin = data.createdAt ∧
      data.displayName =
        (if isNonEmpty user.displayName then user.displayName.getD ""
          else if isNonEmpty additionalData.name then additionalData.name.getD ""
          else "Eco Warrior") := by
  refine ⟨{ displayName :=
              orString user.displayName (orString additionalData.name "Eco Warrior")
            email := user.email
            photoURL := orNull user.photoURL
            createdAt := env.clock 0
            points := 0
            level := 1
            badges := ["newcomer"]
            totalUploads := 0
            totalReports := 0
            streak := 0
            lastLogin := env.clock 0
            name := additionalData.name }, ?_, ?_, rfl, rfl, rfl, rfl, rfl, rfl, rfl, ?_⟩
  · cases h1 : env.faults 1 <;>
      simp [createUserProfile, run_sdkCall, World.start, hread, hnew, h1, applySet]
  · cases h1 : env.faults 1 <;>
      simp [createUserProfile, run_sdkCall, World.start, hread, hnew, h1, applySet]
  · obtain ⟨uid, displayName, email, photoURL⟩ := user
    obtain ⟨name⟩ := additionalData
    cases displayName with
    | none =>
      cases name with
      | none => simp [orString, isNonEmpty]
      | some n => by_cases hn : n = "" <;> simp [orString, isNonEmpty, hn]
    | some d =>
      by_cases hd : d = ""
      · cases name with
        | none => simp [orString, isNonEmpty, hd]
        | some n => by_cases hn : n = "" <;> simp [orString, isNonEmpty, hn, hd]
      · simp [orString, isNonEmpty, hd]

/-- Witness for C15: the first Google sign-in of the sample user on an empty store. -/
theorem C15_createUserProfile_new_profile_witness :
    ∃ data : Profile,
      ((createUserProfile quietEnv (some sampleUser) { name := some "Ann" }).run
          (World.start emptyBackend)).2.calls
        = [SdkCall.getDoc sampleUser.uid, SdkCall.setDoc sampleUser.uid data] ∧
      ((createUserProfile quietEnv (some sampleUser) { name := some "Ann" }).run
          (World.start emptyBackend)).2.backend.users sampleUser.uid
        = (if (quietEnv.faults 1).isNone then some data else none) ∧
      data.points = 0 ∧ data.level = 1 ∧ data.badges = ["newcomer"] ∧
      data.totalUploads = 0 ∧ data.totalReports = 0 ∧ data.streak = 0 ∧
      data.lastLogin = data.createdAt ∧
      data.displayName =
        (if isNonEmpty sampleUser.displayName then sampleUser.displayName.getD ""
          else if isNonEmpty (AdditionalData.mk (some "Ann")).name then
            (AdditionalData.mk (some "Ann")).name.getD ""
          else "Eco Warrior") :=
  C15_createUserProfile_new_profile quietEnv sampleUser { name := some "Ann" } emptyBackend
    rfl rfl

/-- C16: for a user whose profile document exists, `createUserProfile` leaves that
profile equal to the old one except possibly for lastLogin, leaves every other profile as
it was, and issues no `setDoc`. -/
theorem C16_createUserProfile_existing_profile (env : SdkEnv) (user : User)
    (additionalData : AdditionalData) (backend : Backend) (profile : Profile)
    (hexists : backend.users user.uid = some profile) :
    (∃ lastLogin : Int,
      ((createUserProfile env (some user) additionalData).run
          (World.start backend)).2.backend.users user.uid
        = some { profile with lastLogin := lastLogin }) ∧
    (∀ other : String, other ≠ user.uid →
      ((createUserProfile env (some user) additionalData).run
          (World.start backend)).2.backend.users other
        = backend.users other) ∧
    (∀ (uid : String) (data : Profile),
      SdkCall.setDoc uid data ∉
        ((createUserProfile env (some user) additionalData).run
          (World.start backend)).2.calls) := by
  refine ⟨?_, ?_, ?_⟩
  · cases h0 : env.faults 0 <;> cases h1 : env.faults 1
    · exact ⟨env.clock 0, by
        simp [createUserProfile, run_sdkCall, World.start, h0, h1, hexists, applyUpdate]⟩
    all_goals
      exact ⟨profile.lastLogin, by
        simp [createUserProfile, run_sdkCall, World.start, h0, h1, hexists, applyUpdate]⟩
  · intro other hother
    cases h0 : env.faults 0 <;> cases h1 : env.faults 1 <;>
      simp [createUserProfile, run_sdkCall, World.start, h0, h1, hexists, applyUpdate,
        hother]
  · intro uid data
    cases h0 : env.faults 0 <;> cases h1 : env.faults 1 <;>
      simp [createUserProfile, run_sdkCall, World.start, h0, h1, hexists, applyUpdate]

/-- Witness for C16: a returning sign-in of the sample user, whose profile exists. -/
theorem C16_createUserProfile_existing_profile_witness :
    sampleBackend.users sampleUser.uid = some sampleProfile ∧
    ∃ lastLogin : Int,
      ((createUserProfile quietEnv (some sampleUser) { name := none }).run
          (World.start sampleBackend)).2.backend.users sampleUser.uid
        = some { sampleProfile with lastLogin := lastLogin } :=
  ⟨by simp [sampleBackend, sampleUser],
    (C16_createUserProfile_existing_profile quietEnv sampleUser { name := none }
      sampleBackend sampleProfile (by simp [sampleBackend, sampleUser])).1⟩

/-- C17: in every state of the Map page reachable through its events, selectedCategory is
one of 'trash', 'pollution', 'deforestation', 'flood', and so is the category of every
report that `submitReport`, started in such a state, hands to `addDoc`. -/
theorem C17_selectedCategory_in_enum (s : MapState) (hreach : s.Reachable) :
    s.selectedCategory ∈ ["trash", "pollution", "deforestation", "flood"] ∧
    ∀ (env : SdkEnv) (user : Option User) (backend : Backend) (data : ReportData),
      SdkCall.addReport data ∈
          ((submitReport env user s).run (World.start backend)).2.calls →
        data.category ∈ ["trash", "pollution", "deforestation", "flood"] := by
  have hcat := reachable_selectedCategory s hreach
  refine ⟨hcat, ?_⟩
  intro env user backend data hcall
  rw [submitReport_written_category env user s backend data hcall]
  exact hcat

/-- Witness for C17: the state after choosing the third category button and clicking on
the map. -/
theorem C17_selectedCategory_in_enum_witness :
    ((MapState.initial.after (.categoryClicked ⟨2, by decide⟩)).after
        (.mapClicked { lat := 40.75, lng := -73.98 })).selectedCategory
      ∈ ["trash", "pollution", "deforestation", "flood"] :=
  (C17_selectedCategory_in_enum _
    (MapState.Reachable.step _ (MapState.Reachable.step _ MapState.Reachable.initial))).1

/-- C18: in every state of the Upload page reachable through its events, analysisMode is
'plant' or 'trash'; every analysis record that `analyzeFile`, started in such a state,
hands to `addDoc` has mode 'plant' or 'trash'; and the `analyzeImage` call it makes
returns a record, never the failure. -/
theorem C18_analysisMode_plant_or_trash (s : UploadState) (hreach : s.Reachable) :
    (s.analysisMode = "plant" ∨ s.analysisMode = "trash") ∧
    (∀ (env : SdkEnv) (user : Option User) (rand : Nat → ℚ) (backend : Backend)
        (record : AnalysisRecord),
      SdkCall.addAnalysis record ∈
          ((analyzeFile env user rand s).run (World.start backend)).2.calls →
        record.mode = "plant" ∨ record.mode = "trash") ∧
    (∀ (imageBase64 : String) (rand : Nat → ℚ),
      ∃ analysis, (analyzeImage imageBase64 s.analysisMode rand).value = .ok analysis) := by
  have hmode := reachable_analysisMode s hreach
  refine ⟨hmode, ?_, ?_⟩
  · intro env user rand backend record hcall
    rw [analyzeFile_written_mode env user rand s backend record hcall]
    exact hmode
  · intro imageBase64 rand
    exact analyzeImage_valid_mode imageBase64 s.analysisMode rand hmode

/-- Witness for C18: the state after choosing the waste sorter and selecting an image. -/
theorem C18_analysisMode_plant_or_trash_witness :
    ((UploadState.initial.after .trashModeClicked).after
        (.fileSelected (some sampleFile))).analysisMode = "plant" ∨
      ((UploadState.initial.after .trashModeClicked).after
        (.fileSelected (some sampleFile))).analysisMode = "trash" :=
  (C18_analysisMode_plant_or_trash _
    (UploadState.Reachable.step _
      (UploadState.Reachable.step _ UploadState.Reachable.initial))).1

/-- C19 (the code at the failing input): `submitReport` on a filled-in form, where
`addDoc` goes through and the points update (the second SDK call) fails, shows
'Report submitted successfully! +10 eco points earned' as its only notification although
the user's profile still holds its old 40 points. -/
theorem C19_submitReport_toast_without_points :
    (((submitReport (faultAt 1) (some sampleUser) sampleForm).run
        (World.start sampleBackend)).2.toasts
      = [Toast.success "Report submitted successfully! +10 eco points earned 🌍"]) ∧
    (((submitReport (faultAt 1) (some sampleUser) sampleForm).run
        (World.start sampleBackend)).2.backend.users sampleUser.uid
      = some sampleProfile) ∧
    sampleProfile.points = 40 ∧
    (((submitReport (faultAt 1) (some sampleUser) sampleForm).run
        (World.start sampleBackend)).2.calls.map SdkCall.functionName
      = ["addDoc", "updateDoc", "getDocs"]) := by
  have hdesc : ¬ trim "Overflowing bin" = "" := by decide
  refine ⟨?_, ?_, rfl, ?_⟩ <;>
    simp [submitReport, sampleForm, MapState.initial, updateUserPoints, run_sdkCall,
      World.start, faultAt, sampleBackend, sampleUser, applyUpdate, hdesc,
      SdkCall.functionName]

/-- C20 (the code at the failing input): for a signed-in user named like the first mock
row, the rank computed under 'Find user's rank' with the points metric is 1, while the
user's own entry, the one with id '6', stands at position 6 of the sorted leaderboard. -/
theorem C20_userRank_of_namesake :
    (fetchLeaderboardData (some namesakeUser) "all" "points").userRank = some 1 ∧
    ((fetchLeaderboardData (some namesakeUser) "all" "points").leaderboard.map
        LeaderboardEntry.id).indexOf "6" + 1 = 6 := by
  constructor
  · simp [fetchLeaderboardData, arraySort, compareEntries, mockLeaderboard, findIndex,
      orString, namesakeUser, List.findIdx?_cons]
  · simp [fetchLeaderboardData, arraySort, compareEntries, mockLeaderboard, orString,
      namesakeUser, List.indexOf_cons]

/-- C21 (the code at the failing input): for a user with 80 stored reports the run of
`fetchProfileData` computes 800 points and level 5, yet stores the achievement 'Level Up'
('Reach level 5') as not unlocked. -/
theorem C21_level_up_locked_at_level_five :
    ((fetchProfileData (some sampleUser) none (ProfileState.initial (some sampleUser))
        (.ok ([], List.replicate 80 sampleReport)) (fun _ => 0)
        (fun _ => 0)).state.userStats.map UserStats.level = some 5) ∧
    ((achievementOf
        (fetchProfileData (some sampleUser) none (ProfileState.initial (some sampleUser))
          (.ok ([], List.replicate 80 sampleReport)) (fun _ => 0) (fun _ => 0))
        "level-up").map (fun a => (a.name, a.description, a.unlocked))
      = some ("Level Up", "Reach level 5", false)) := by
  constructor
  · norm_num [fetchProfileData, mathFloor, List.length_replicate]
  · simp [fetchProfileData, achievementOf]

/-- C22 (the code at the failing inputs): the first run of `fetchProfileData`, with the
streak draw 9/10, stores the streak 14 but 'Streak Keeper' as not unlocked; a second run
started from the cells of the first, with the streak draw 0, stores the streak 1 and
'Streak Keeper' as unlocked. -/
theorem C22_streak_keeper_uses_previous_streak :
    ((fetchProfileData (some sampleUser) none (ProfileState.initial (some sampleUser))
        (.ok ([], [])) (fun _ => 9 / 10) (fun _ => 0)).state.userStats.map UserStats.streak
      = some 14) ∧
    ((achievementOf
        (fetchProfileData (some sampleUser) none (ProfileState.initial (some sampleUser))
          (.ok ([], [])) (fun _ => 9 / 10) (fun _ => 0))
        "streak-keeper").map Achievement.unlocked = some false) ∧
    ((fetchProfileData (some sampleUser) none
        (fetchProfileData (some sampleUser) none (ProfileState.initial (some sampleUser))
          (.ok ([], [])) (fun _ => 9 / 10) (fun _ => 0)).state
        (.ok ([], [])) (fun _ => 0) (fun _ => 0)).state.userStats.map UserStats.streak
      = some 1) ∧
    ((achievementOf
        (fetchProfileData (some sampleUser) none
          (fetchProfileData (some sampleUser) none (ProfileState.initial (some sampleUser))
            (.ok ([], [])) (fun _ => 9 / 10) (fun _ => 0)).state
          (.ok ([], [])) (fun _ => 0) (fun _ => 0))
        "streak-keeper").map Achievement.unlocked = some true) := by
  refine ⟨?_, ?_, ?_, ?_⟩
  · rw [fetchProfileData_streak]
    norm_num [mathFloor]
  · rw [fetchProfileData_streak_keeper]
    rfl
  · rw [fetchProfileData_streak]
    norm_num [mathFloor]
  · rw [fetchProfileData_streak_keeper]
    have h := fetchProfileData_streak sampleUser none (ProfileState.initial (some sampleUser))
      ([], []) (fun _ => 9 / 10) (fun _ => 0)
    cases hstats : (fetchProfileData (some sampleUser) none
        (ProfileState.initial (some sampleUser)) (.ok ([], [])) (fun _ => 9 / 10)
        (fun _ => 0)).state.userStats with
    | none => simp [hstats] at h
    | some stats =>
      simp only [hstats, Option.map_some', Option.some.injEq] at h
      have h14 : stats.streak = 14 := by
        rw [h]
        norm_num [mathFloor]
      simp [h14]

/-- C23: with a lower-casing that acts on the four quick-action questions as ASCII
lower-casing does and a selection draw in [0,1), 'How do I take care of my plants?' is
answered from plant_care, 'What can I recycle and how?' from recycling, and both
'Give me some sustainability tips' and 'What are some eco-friendly practices I can
adopt?' from sustainability; none of the four contains 'hello', 'hi' or 'hey'. -/
theorem C23_quick_actions_answered_from_own_bucket (toLowerCase : String → String)
    (rand : Nat → ℚ)
    (hlower : ∀ action ∈ quickActions, toLowerCase action.message = asciiLower action.message)
    (h0 : 0 ≤ rand 1) (h1 : rand 1 < 1) :
    (∃ reply, (getChatbotResponse toLowerCase "How do I take care of my plants?" rand).value
        = some reply ∧ reply ∈ plant_care) ∧
    (∃ reply, (getChatbotResponse toLowerCase "What can I recycle and how?" rand).value
        = some reply ∧ reply ∈ recycling) ∧
    (∃ reply, (getChatbotResponse toLowerCase "Give me some sustainability tips" rand).value
        = some reply ∧ reply ∈ sustainability) ∧
    (∃ reply,
      (getChatbotResponse toLowerCase "What are some eco-friendly practices I can adopt?"
        rand).value = some reply ∧ reply ∈ sustainability) ∧
    (∀ action ∈ quickActions,
      containsAny (toLowerCase action.message) ["hello", "hi", "hey"] = false) := by
  obtain ⟨hplant, hrecycle, htips, heco, g1, g2, g3, g4⟩ := keywordBucket_quickActions
  have l1 := hlower ⟨"Leaf", "Plant care tips", "How do I take care of my plants?"⟩
    (by simp [quickActions])
  have l2 := hlower ⟨"Recycle", "Recycling help", "What can I recycle and how?"⟩
    (by simp [quickActions])
  have l3 := hlower ⟨"TreePine", "Sustainability tips", "Give me some sustainability tips"⟩
    (by simp [quickActions])
  have l4 := hlower
    ⟨"Lightbulb", "Eco-friendly ideas", "What are some eco-friendly practices I can adopt?"⟩
    (by simp [quickActions])
  simp only at l1 l2 l3 l4
  refine ⟨?_, ?_, ?_, ?_, ?_⟩
  · rw [getChatbotResponse_value, l1, hplant]
    exact getRandomResponse_mem _ _ h0 h1 (by simp [plant_care])
  · rw [getChatbotResponse_value, l2, hrecycle]
    exact getRandomResponse_mem _ _ h0 h1 (by simp [recycling])
  · rw [getChatbotResponse_value, l3, htips]
    exact getRandomResponse_mem _ _ h0 h1 (by simp [sustainability])
  · rw [getChatbotResponse_value, l4, heco]
    exact getRandomResponse_mem _ _ h0 h1 (by simp [sustainability])
  · intro action haction
    simp only [quickActions, List.mem_cons, List.mem_singleton, List.not_mem_nil,
      or_false] at haction
    rcases haction with rfl | rfl | rfl | rfl
    · rw [l1]; exact g1
    · rw [l2]; exact g2
    · rw [l3]; exact g3
    · rw [l4]; exact g4

/-- Witness for C23: ASCII lower-casing and every draw equal to 1/2. -/
theorem C23_quick_actions_answered_from_own_bucket_witness :
    (∃ reply, (getChatbotResponse asciiLower "How do I take care of my plants?"
        (fun _ => 1 / 2)).value = some reply ∧ reply ∈ plant_care) ∧
    (∃ reply, (getChatbotResponse asciiLower "What can I recycle and how?"
        (fun _ => 1 / 2)).value = some reply ∧ reply ∈ recycling) :=
  have h := C23_quick_actions_answered_from_own_bucket asciiLower (fun _ => 1 / 2)
    (fun _ _ => rfl) (by norm_num) (by norm_num)
  ⟨h.1, h.2.1⟩

/-- C24: for a message text (the argument, or the input text when the argument is
omitted) whose trimmed form is non-empty, a completed `sendMessage` leaves the message
list equal to the old list followed by a user entry holding the trimmed text and one bot
entry, the input text empty and loading false, whether the reply request is fulfilled or
rejected. -/
theorem C24_sendMessage_appends_two (toLowerCase : String → String) (s : ChatState)
    (messageText : Option String) (clock : Nat → Int) (rand : Nat → ℚ)
    (outcome : Except String (Option String))
    (htext : trim (messageText.getD s.inputMessage) ≠ "") :
    (∃ started userEntry botEntry,
      sendMessageStart s (messageText.getD s.inputMessage) clock = some started ∧
      (sendMessageSettle started outcome clock).messages
        = s.messages ++ [userEntry, botEntry] ∧
      userEntry.type = "user" ∧
      userEntry.content = some (trim (messageText.getD s.inputMessage)) ∧
      botEntry.type = "bot" ∧
      (sendMessageSettle started outcome clock).inputMessage = "" ∧
      (sendMessageSettle started outcome clock).loading = false) ∧
    (∃ userEntry botEntry,
      (sendMessage toLowerCase s messageText clock rand).state.messages
        = s.messages ++ [userEntry, botEntry] ∧
      userEntry.type = "user" ∧
      userEntry.content = some (trim (messageText.getD s.inputMessage)) ∧
      botEntry.type = "bot" ∧
      (sendMessage toLowerCase s messageText clock rand).state.inputMessage = "" ∧
      (sendMessage toLowerCase s messageText clock rand).state.loading = false) := by
  generalize htextDef : messageText.getD s.inputMessage = text at htext
  have hstart : sendMessageStart s text clock =
      some { s with
        messages := s.messages ++ [Message.mk (clock 0) "user" (some (trim text)) (clock 1)]
        inputMessage := ""
        loading := true } := by
    simp [sendMessageStart, htext]
  constructor
  · cases outcome with
    | ok botResponse =>
      exact ⟨_, Message.mk (clock 0) "user" (some (trim text)) (clock 1),
        Message.mk (clock 2 + 1) "bot" botResponse (clock 3), hstart,
        by simp [sendMessageSettle], rfl, rfl, rfl, rfl, rfl⟩
    | error e =>
      exact ⟨_, Message.mk (clock 0) "user" (some (trim text)) (clock 1),
        Message.mk (clock 2 + 1) "bot" (some chatErrorText) (clock 3), hstart,
        by simp [sendMessageSettle], rfl, rfl, rfl, rfl, rfl⟩
  · refine ⟨Message.mk (clock 0) "user" (some (trim text)) (clock 1),
      Message.mk (clock 2 + 1) "bot"
        (getChatbotResponse toLowerCase text rand).value (clock 3),
      ?_, rfl, rfl, rfl, ?_, ?_⟩ <;>
      simp [sendMessage, htextDef, hstart, sendMessageSettle]

/-- Witness for C24: the text ' hello ' sent on the initial state, the request rejected. -/
theorem C24_sendMessage_appends_two_witness :
    ∃ started userEntry botEntry,
      sendMessageStart (ChatState.initial 0) " hello " (fun _ => 0) = some started ∧
      (sendMessageSettle started (.error "network") (fun _ => 0)).messages
        = (ChatState.initial 0).messages ++ [userEntry, botEntry] ∧
      userEntry.type = "user" ∧ userEntry.content = some (trim " hello ") ∧
      botEntry.type = "bot" ∧
      (sendMessageSettle started (.error "network") (fun _ => 0)).inputMessage = "" ∧
      (sendMessageSettle started (.error "network") (fun _ => 0)).loading = false :=
  (C24_sendMessage_appends_two asciiLower (ChatState.initial 0) (some " hello ")
    (fun _ => 0) (fun _ => 0) (.error "network") (by decide)).1

/-- C25: for a mode other than 'plant' and 'trash', whatever the image, `analyzeImage`
fails with the message 'AI analysis failed. Please try again.'; the 'Invalid analysis
mode' error thrown inside is the one that was replaced. -/
theorem C25_analyzeImage_invalid_mode (imageBase64 mode : String) (rand : Nat → ℚ)
    (hplant : mode ≠ "plant") (htrash : mode ≠ "trash") :
    (analyzeImage imageBase64 mode rand).value
      = .error "AI analysis failed. Please try again." ∧
    analyzeImageBody imageBase64 mode rand = .error "Invalid analysis mode" ∧
    ("AI analysis failed. Please try again." : String) ≠ "Invalid analysis mode" := by
  refine ⟨?_, ?_, by decide⟩ <;> simp [analyzeImage, analyzeImageBody, hplant, htrash]

/-- Witness for C25: the mode 'animal'. -/
theorem C25_analyzeImage_invalid_mode_witness :
    (analyzeImage "data:image/png;base64,AAAA" "animal" (fun _ => 1 / 2)).value
      = .error "AI analysis failed. Please try again." :=
  (C25_analyzeImage_invalid_mode "data:image/png;base64,AAAA" "animal" (fun _ => 1 / 2)
    (by decide) (by decide)).1

/-- C26: `submitReport` without a selected position, or with a description whose trimmed
form is empty, issues no SDK call (no report written, no points update), leaves the
document store as it was, and returns the page state unchanged; it only shows the error
notification. -/
theorem C26_submitReport_guard (env : SdkEnv) (user : Option User) (s : MapState)
    (backend : Backend)
    (hguard : s.selectedPosition = none ∨ trim s.reportDescription = "") :
    ((submitReport env user s).run (World.start backend)).1 = .ok s ∧
    ((submitReport env user s).run (World.start backend)).2.calls = [] ∧
    ((submitReport env user s).run (World.start backend)).2.backend.users = backend.users ∧
    ((submitReport env user s).run (World.start backend)).2.backend.ecoReports
      = backend.ecoReports ∧
    ((submitReport env user s).run (World.start backend)).2.toasts
      = [Toast.error "Please provide location and description"] := by
  unfold submitReport
  cases hpos : s.selectedPosition with
  | none => simp [World.start]
  | some position =>
    have hdesc : trim s.reportDescription = "" := by
      rcases hguard with h | h
      · rw [hpos] at h; cases h
      · exact h
    simp [hdesc, World.start]

/-- Witness for C26: the sample form with a whitespace-only description. -/
theorem C26_submitReport_guard_witness :
    ((submitReport quietEnv (some sampleUser) { sampleForm with reportDescription := "  " }).run
        (World.start sampleBackend)).2.calls = [] :=
  (C26_submitReport_guard quietEnv (some sampleUser)
    { sampleForm with reportDescription := "  " } sampleBackend
    (Or.inr (by decide))).2.1

/-- C27: `handleSubmit` of `Login` always completes; it calls `signIn` (once, with the
form's email and password) exactly when the email is non-empty, contains a block of the
form non-whitespace characters, '@', non-whitespace characters, '.', non-whitespace
characters, and the password is non-empty; otherwise it makes no backend call.  The
stored errors are 'Email is required' for an empty email, 'Email is invalid' for a
non-empty email without such a block, and 'Password is required' for an empty password. -/
theorem C27_login_handleSubmit (env : SdkEnv) (s : LoginState) (backend : Backend) :
    ∃ result : LoginResult,
      ((Login.handleSubmit env s).run (World.start backend)).1 = .ok result ∧
      (result.signInCalls = [(s.formData.email, s.formData.password)] ↔
        (s.formData.email ≠ "" ∧ ContainsEmailShape s.formData.email ∧
          s.formData.password ≠ "")) ∧
      (result.signInCalls = [] ↔
        ¬ (s.formData.email ≠ "" ∧ ContainsEmailShape s.formData.email ∧
          s.formData.password ≠ "")) ∧
      (((Login.handleSubmit env s).run (World.start backend)).2.calls
          = [SdkCall.signInWithEmailAndPassword s.formData.email s.formData.password] ↔
        (s.formData.email ≠ "" ∧ ContainsEmailShape s.formData.email ∧
          s.formData.password ≠ "")) ∧
      (((Login.handleSubmit env s).run (World.start backend)).2.calls = [] ↔
        ¬ (s.formData.email ≠ "" ∧ ContainsEmailShape s.formData.email ∧
          s.formData.password ≠ "")) ∧
      (result.state.errors.email = some "Email is required" ↔ s.formData.email = "") ∧
      (result.state.errors.email = some "Email is invalid" ↔
        (s.formData.email ≠ "" ∧ ¬ ContainsEmailShape s.formData.email)) ∧
      (result.state.errors.password = some "Password is required" ↔
        s.formData.password = "") := by
  simp only [← emailPatternTest_iff_shape]
  by_cases hemail : s.formData.email = "" <;>
    by_cases hshape : emailPatternTest s.formData.email.data = true <;>
    by_cases hpassword : s.formData.password = "" <;>
    cases h0 : env.faults 0 <;>
    simp [Login.handleSubmit, Login.validateForm, signIn, run_sdkCall, World.start, hemail,
      hshape, hpassword, h0]

end EcoAI
